import Mathlib

/-!
# ChatTestPage.js : session, token renewal and STOMP connection lifecycle

A shallow embedding of `src/ChatTestPage.js`.

* The browser (localStorage, the cookie jar), the React state of the component,
  its two refs and the objects of the STOMP library are fields of one record, `Page`.
* Every effect the code performs on the outside world (network calls, storage
  writes, alerts, STOMP calls, timers) is appended to `Page.log`, in program order.
* The network is a function `Server` from the requests issued so far and the
  current request to the outcome of `fetch`.
* An `async` function that awaits the network is split at that `await`
  (`reissueStart` / `reissueFinish`, `connectStart` / `connectResume`,
  `handleLogoutStart` / `handleLogoutFinish`), so that what runs in between can be
  stated; the function of the source's name is the two halves with nothing in between.
* `httpRequest` is recursive without a bound in the source; its model takes fuel
  and answers `none` while the call has not settled.
-/

namespace ChatTestPage

/-! ## Constants -/

def API_BASE : String := "http://localhost:8080"
def WS_SOCKJS_URL : String := API_BASE ++ "/chat/inbox"
def SUB_PREFIX : String := "/sub"
def PUB_PREFIX : String := "/pub"

/-! ## Data model -/

/-- A value produced by `JSON.parse`; only carried around, never inspected. -/
inductive Json where
  | null
  | bool (b : Bool)
  | num (n : Int)
  | str (s : String)
  | arr (items : List Json)
  | obj (fields : List (String × Json))

/-- The `wsStatus` state of the component. -/
inductive WsStatus where
  | DISCONNECTED
  | CONNECTING
  | CONNECTED
  deriving DecidableEq, Repr

/-- What a rejected promise or a `throw` carries. -/
inductive Thrown where
  /-- The call of `fetch` itself rejected (network failure), with the reason the network gave. -/
  | network (reason : String)
  /-- The call of `res.json()` rejected: the body is not JSON. -/
  | malformedBody
  /-- The statement `throw new Error(message)`. -/
  | error (message : String)
  deriving DecidableEq, Repr

/-- The body handed to `fetch`. -/
inductive Payload where
  /-- The text `JSON.stringify(body)` of a truthy `body` argument of `httpRequest`. -/
  | json (text : String)
  /-- The text `JSON.stringify({ refreshToken })`. -/
  | refreshToken (token : String)
  deriving DecidableEq, Repr

/-- The arguments of one `fetch` call (`credentials: "include"` is always set). -/
structure Request where
  method : String
  url : String
  headers : List (String × String)
  body : Option Payload
  deriving DecidableEq, Repr

/-- What `res.json()` gives. -/
inductive Body where
  /-- The call of `res.json()` rejects. -/
  | malformed
  /-- The call of `res.json()` resolves to `data`; `accessToken` is `data?.accessToken`
  (`none` when `data` is null or has no such member). Access tokens are strings. -/
  | parsed (accessToken : Option String)
  deriving DecidableEq, Repr

/-- The response of a `fetch` call. -/
structure Response where
  status : Nat
  body : Body
  deriving DecidableEq, Repr

/-- The flag `res.ok`: the status is in the range 200-299. -/
def Response.ok (res : Response) : Bool :=
  decide (200 ≤ res.status) && decide (res.status ≤ 299)

/-- The network: the requests issued so far (oldest first) and the current request
give the outcome of `fetch`, a rejection or a response. -/
abbrev Server := List Request → Request → Except Thrown Response

/-- The place in the source that issued a `fetch`. -/
inductive Site where
  /-- Line 67, the call of `httpRequest`. -/
  | call
  /-- Line 34, the exchange of `reissueAccessTokenFromCookie`. -/
  | exchange
  /-- Line 166, the revocation of `handleLogout`. -/
  | revoke
  deriving DecidableEq, Repr

/-- A subscription handle returned by `client.subscribe`. -/
structure Subscription where
  id : Nat
  client : Nat
  topic : String
  deriving DecidableEq, Repr

/-- A `Client` object of the STOMP library, with the configuration the page gave it
and the two flags the library keeps. -/
structure Client where
  /-- The header `connectHeaders.Authorization`. -/
  authorization : String
  /-- The `chatRoomId` captured by the callbacks of this client. -/
  chatRoomId : Nat
  /-- Set by `activate()`, reset by `deactivate()`. -/
  active : Bool
  /-- The `connected` getter: set when the handshake succeeds, reset on close. -/
  connected : Bool
  deriving DecidableEq, Repr

/-- The outbound frame of `client.publish`: destination and the two members of the
serialised body. -/
structure Frame where
  destination : String
  chatRoomId : Nat
  content : String
  deriving DecidableEq, Repr

/-- Every effect on the outside world, in program order. -/
inductive Event where
  | fetch (site : Site) (req : Request)
  /-- The function `reissueAccessTokenFromCookie` was invoked. -/
  | renew
  /-- The call `localStorage.setItem("access_token", value)`. -/
  | setItem (value : String)
  /-- The call `localStorage.removeItem("access_token")`. -/
  | removeItem
  /-- The call `deleteCookie(name)`. -/
  | deleteCookie (name : String)
  | alert (message : String)
  | setWsStatus (status : WsStatus)
  /-- The expression `new Client(...)`, the client getting the given index. -/
  | newClient (client : Nat)
  | activate (client : Nat)
  | deactivate (client : Nat)
  | subscribe (sub : Subscription)
  | unsubscribe (sub : Subscription)
  | publish (client : Nat) (frame : Frame)
  /-- The call `setTimeout(() => connectAndSubscribe(chatRoomId), 300)`. -/
  | setTimeout (chatRoomId : Nat)
  | warn (body : String)
  deriving DecidableEq, Repr

/-- The `me` state: the claims decoded from the access token. -/
structure Identity where
  userId : Option Nat
  email : Option String
  nickname : Option String
  deriving DecidableEq, Repr

/-- The `room` state: the conversation returned by `POST /v1/chatRoom`. -/
structure Room where
  /-- The member `chatRoomId`; 0, which is falsy like a missing member, also stands
  for a missing one. -/
  chatRoomId : Nat
  deriving DecidableEq, Repr

/-- The browser, the component and the STOMP library. -/
structure Page where
  /-- The entry `localStorage["access_token"]`. -/
  accessToken : Option String
  /-- The cookies `document.cookie` shows, as name/value pairs. -/
  cookies : List (String × String)
  me : Option Identity
  room : Option Room
  messageText : String
  messages : List Json
  wsStatus : WsStatus
  authReady : Bool
  /-- The reference `stompRef.current`: an index into `clients`. -/
  stompRef : Option Nat
  /-- The reference `subRef.current`. -/
  subRef : Option Subscription
  /-- Every `Client` created so far; a client is named by its index. -/
  clients : List Client
  /-- The subscriptions made and not yet unsubscribed. -/
  activeSubs : List Subscription
  /-- The next subscription id the library hands out. -/
  nextSubId : Nat
  /-- The pending `setTimeout` callbacks, each with the `chatRoomId` it captured. -/
  timers : List Nat
  log : List Event

/-- The component as first rendered, over a given browser state. -/
def Page.initial (accessToken : Option String) (cookies : List (String × String)) : Page :=
  { accessToken := accessToken, cookies := cookies, me := none, room := none,
    messageText := "", messages := [], wsStatus := WsStatus.DISCONNECTED,
    authReady := false, stompRef := none, subRef := none, clients := [],
    activeSubs := [], nextSubId := 0, timers := [], log := [] }

/-- Append one effect to the log. -/
def Page.emit (p : Page) (e : Event) : Page :=
  { p with log := p.log ++ [e] }

/-- The requests issued so far, oldest first. -/
def history (log : List Event) : List Request :=
  log.filterMap fun e => match e with
    | Event.fetch _ req => some req
    | _ => none

/-- JavaScript truthiness of a value that is a string, null or undefined. -/
def truthy : Option String → Bool
  | some s => s != ""
  | none => false

/-! ## Cookie and token utilities (lines 11-48) -/

/-- The call `s.split(sep)` for a one-character separator, on the characters of `s`. -/
def splitChars (sep : Char) : List Char → List (List Char)
  | [] => [[]]
  | c :: cs =>
    if c = sep then [] :: splitChars sep cs
    else match splitChars sep cs with
      | [] => [[c]]
      | h :: t => (c :: h) :: t

/-- The string `document.cookie` shows for a jar. -/
def documentCookie (cookies : List (String × String)) : String :=
  "; ".intercalate (cookies.map fun kv => kv.1 ++ "=" ++ kv.2)

/-- The function `getCookie(key)` over the string `document.cookie`: the first item whose name,
after its first blank is removed, is `key` decides; the result is `dic[1]`, which is
undefined (`none`) when the item holds no `=`. -/
def getCookie (cookie : String) (key : String) : Option String :=
  let dics := (splitChars ';' cookie.toList).map fun item => splitChars '=' (item.erase ' ')
  match dics.find? fun dic => decide (dic.head? = some key.toList) with
  | none => none
  | some dic => (dic.get? 1).map String.mk

/-- The call `deleteCookie(name)`: the cookie of that name leaves the jar. -/
def deleteCookie (p : Page) (name : String) : Page :=
  { p with cookies := p.cookies.filter fun kv => kv.1 != name,
           log := p.log ++ [Event.deleteCookie name] }

/-- The request of line 34. -/
def tokenRequest (refreshToken : String) : Request :=
  { method := "POST", url := API_BASE ++ "/api/token",
    headers := [("Content-Type", "application/json")],
    body := some (Payload.refreshToken refreshToken) }

/-- Lines 31-39 of `reissueAccessTokenFromCookie`, up to the `await` of the exchange:
the request it has issued (`none` when it returned null without a call). -/
def reissueStart (p : Page) : Option Request × Page :=
  let p := p.emit Event.renew
  match getCookie (documentCookie p.cookies) "refresh_token" with
  | none => (none, p)
  | some refreshToken =>
    if refreshToken = "" then (none, p)
    else (some (tokenRequest refreshToken), p.emit (Event.fetch Site.exchange (tokenRequest refreshToken)))

/-- Lines 41-47 of `reissueAccessTokenFromCookie`, from the answer of the exchange on. -/
def reissueFinish (outcome : Except Thrown Response) (p : Page) :
    Except Thrown (Option String) × Page :=
  match outcome with
  | Except.error e => (Except.error e, p)
  | Except.ok res =>
    if !res.ok then (Except.ok none, p)
    else match res.body with
      | Body.malformed => (Except.error Thrown.malformedBody, p)
      | Body.parsed none => (Except.ok none, p)
      | Body.parsed (some token) =>
        if token = "" then (Except.ok none, p)
        else (Except.ok (some token),
              { p with accessToken := some token, log := p.log ++ [Event.setItem token] })

/-- The call `reissueAccessTokenFromCookie()`, the exchange answered at once by the server. -/
def reissueAccessTokenFromCookie (server : Server) (p : Page) :
    Except Thrown (Option String) × Page :=
  match reissueStart p with
  | (none, p1) => (Except.ok none, p1)
  | (some req, p1) => reissueFinish (server (history p.log) req) p1

/-! ## httpRequest (lines 50-79) -/

/-- Line 51-53: the absolute URL of a call. -/
def fullUrl (url : String) : String :=
  if "http".toList.isPrefixOf url.toList then url
  else API_BASE ++ (if "/".toList.isPrefixOf url.toList then "" else "/") ++ url

/-- Lines 55-65: the arguments of the `fetch` of `httpRequest`. -/
def callRequest (p : Page) (method url : String) (body : Option String) : Request :=
  { method := method, url := fullUrl url,
    headers := [("Content-Type", "application/json")] ++
      (match p.accessToken with
       | some token => if token = "" then [] else [("Authorization", "Bearer " ++ token)]
       | none => []),
    body := body.map Payload.json }

/-- The call `httpRequest(method, url, body)`; `body` is the serialisation of a truthy body
argument, `none` for a null one. The result is `none` when the fuel ran out before
the promise settled; the page holds the effects performed up to then. -/
def httpRequest (server : Server) :
    Nat → Page → String → String → Option String → Option (Except Thrown Response) × Page
  | 0, p, _, _, _ => (none, p)
  | fuel + 1, p, method, url, body =>
    let req := callRequest p method url body
    let p1 := p.emit (Event.fetch Site.call req)
    match server (history p.log) req with
    | Except.error e => (some (Except.error e), p1)
    | Except.ok res =>
      if res.ok then (some (Except.ok res), p1)
      else if res.status = 401 then
        match reissueAccessTokenFromCookie server p1 with
        | (Except.error e, p2) => (some (Except.error e), p2)
        | (Except.ok (some _), p2) => httpRequest server fuel p2 method url body
        | (Except.ok none, p2) =>
          (some (Except.error (Thrown.error "UNAUTHORIZED")),
           { p2 with accessToken := none, log := p2.log ++ [Event.removeItem] })
      else (some (Except.error (Thrown.error ("Request failed: " ++ toString res.status))), p1)

/-! ## The STOMP session (lines 148-158, 208-272) -/

/-- Apply `f` to the client of index `c`. -/
def modifyClient (f : Client → Client) : Nat → List Client → List Client
  | _, [] => []
  | 0, cl :: cls => f cl :: cls
  | c + 1, cl :: cls => cl :: modifyClient f c cls

/-- The call `setWsStatus(status)`. -/
def Page.setWsStatus (p : Page) (status : WsStatus) : Page :=
  { p with wsStatus := status, log := p.log ++ [Event.setWsStatus status] }

/-- The call `sub.unsubscribe()`: the subscription is no longer active. -/
def Page.unsubscribe (p : Page) (sub : Subscription) : Page :=
  { p with activeSubs := p.activeSubs.filter fun s => s != sub,
           log := p.log ++ [Event.unsubscribe sub] }

/-- The statement `if (subRef.current) subRef.current.unsubscribe();` (lines 232 and 249). -/
def Page.unsubscribeCurrent (p : Page) : Page :=
  match p.subRef with
  | some sub => p.unsubscribe sub
  | none => p

/-- The statement `subRef.current = client.subscribe(topic, onMessage)` on the client of index `c`. -/
def Page.subscribe (p : Page) (c : Nat) (topic : String) : Page :=
  let sub : Subscription := { id := p.nextSubId, client := c, topic := topic }
  { p with subRef := some sub, activeSubs := p.activeSubs ++ [sub],
           nextSubId := p.nextSubId + 1, log := p.log ++ [Event.subscribe sub] }

/-- The call `client.deactivate()` on the client of index `c`. -/
def Page.deactivate (p : Page) (c : Nat) : Page :=
  { p with clients := modifyClient (fun cl => { cl with active := false }) c p.clients,
           log := p.log ++ [Event.deactivate c] }

/-- The call `client.activate()` on the client of index `c`. -/
def Page.activate (p : Page) (c : Nat) : Page :=
  { p with clients := modifyClient (fun cl => { cl with active := true }) c p.clients,
           log := p.log ++ [Event.activate c] }

/-- The client `stompRef.current` when `stompRef.current && stompRef.current.connected`
holds (lines 231 and 283). -/
def Page.connectedClient (p : Page) : Option Nat :=
  match p.stompRef with
  | none => none
  | some c =>
    match p.clients.get? c with
    | some cl => if cl.connected then some c else none
    | none => none

/-- The call `disconnectWs()` (lines 148-158). -/
def disconnectWs (p : Page) : Page :=
  let p1 := match p.subRef with
    | some sub => { p.unsubscribe sub with subRef := none }
    | none => p
  let p2 := match p1.stompRef with
    | some c => { p1.deactivate c with stompRef := none }
    | none => p1
  p2.setWsStatus WsStatus.DISCONNECTED

/-- The request of line 166. -/
def revokeRequest : Request :=
  { method := "DELETE", url := API_BASE ++ "/api/refresh-token", headers := [], body := none }

/-- Lines 173-180 of `handleLogout`: the client side is cleared. -/
def clearClientSide (p : Page) : Page :=
  let p1 := { p with accessToken := none, log := p.log ++ [Event.removeItem] }
  let p2 := deleteCookie p1 "refresh_token"
  { p2 with me := none, room := none, messages := [], authReady := !p2.authReady }

/-- Lines 162-169 of `handleLogout`, up to the `await` of the revocation: the session is
torn down and the revocation call is issued. -/
def handleLogoutStart (p : Page) : Page :=
  (disconnectWs p).emit (Event.fetch Site.revoke revokeRequest)

/-- Lines 170-180 of `handleLogout`, from the answer of the revocation on. The
`try`/`catch` swallows a rejection, and a response is not looked at. -/
def handleLogoutFinish (outcome : Except Thrown Response) (p : Page) : Page :=
  match outcome with
  | Except.error _ => clearClientSide p
  | Except.ok _ => clearClientSide p

/-- The call `handleLogout()` (lines 160-181) with nothing else running while the
revocation is awaited. -/
def handleLogout (server : Server) (p : Page) : Page :=
  handleLogoutFinish (server (history (disconnectWs p).log) revokeRequest) (handleLogoutStart p)

/-- The call `onMessage(msg)` (lines 208-215) on a frame of body `body`; `parse` is `JSON.parse`,
`none` when it throws. -/
def onMessage (parse : String → Option Json) (body : String) (p : Page) : Page :=
  match parse body with
  | some payload => { p with messages := p.messages ++ [payload] }
  | none => p.emit (Event.warn body)

/-- The call `ensureToken()` (lines 218-222). -/
def ensureToken (server : Server) (p : Page) : Except Thrown (Option String) × Page :=
  if truthy p.accessToken then (Except.ok p.accessToken, p)
  else reissueAccessTokenFromCookie server p

/-- The topic of lines 233 and 250. -/
def channelTopic (chatRoomId : Nat) : String :=
  SUB_PREFIX ++ "/channel/" ++ toString chatRoomId

/-- Lines 237-271: a new client, configured with the token, stored and activated. -/
def openConnection (token : String) (chatRoomId : Nat) (p : Page) : Page :=
  let p1 := p.setWsStatus WsStatus.CONNECTING
  let c := p1.clients.length
  let client : Client :=
    { authorization := "Bearer " ++ token, chatRoomId := chatRoomId,
      active := false, connected := false }
  let p2 := { p1 with clients := p1.clients ++ [client], log := p1.log ++ [Event.newClient c] }
  let p3 := { p2 with stompRef := some c }
  p3.activate c

/-- The alert of line 226. -/
def noTokenAlert : String := "AccessToken이 없습니다. 로그인부터 해주세요."

/-- The call `connectAndSubscribe(chatRoomId)` (lines 217-272). -/
def connectAndSubscribe (server : Server) (chatRoomId : Nat) (p : Page) :
    Except Thrown Unit × Page :=
  match ensureToken server p with
  | (Except.error e, p1) => (Except.error e, p1)
  | (Except.ok none, p1) => (Except.ok (), p1.emit (Event.alert noTokenAlert))
  | (Except.ok (some token), p1) =>
    if token = "" then (Except.ok (), p1.emit (Event.alert noTokenAlert))
    else
      match p1.connectedClient with
      | some c => (Except.ok (), p1.unsubscribeCurrent.subscribe c (channelTopic chatRoomId))
      | none => (Except.ok (), openConnection token chatRoomId p1)

/-- Lines 225-271 of `connectAndSubscribe`, from the token `ensureToken` resolved on. -/
def connectWithToken (chatRoomId : Nat) (token : Option String) (p : Page) :
    Except Thrown Unit × Page :=
  match token with
  | none => (Except.ok (), p.emit (Event.alert noTokenAlert))
  | some token =>
    if token = "" then (Except.ok (), p.emit (Event.alert noTokenAlert))
    else
      match p.connectedClient with
      | some c => (Except.ok (), p.unsubscribeCurrent.subscribe c (channelTopic chatRoomId))
      | none => (Except.ok (), openConnection token chatRoomId p)

/-- The call `connectAndSubscribe(chatRoomId)` up to its first `await` of the network:
with a token stored, or with no renewal cookie, it runs to its end without one (`none`);
otherwise it has issued the renewal exchange and is suspended on it. -/
def connectStart (chatRoomId : Nat) (p : Page) : Option Request × Page :=
  if truthy p.accessToken then (none, (connectWithToken chatRoomId p.accessToken p).2)
  else
    match reissueStart p with
    | (none, p1) => (none, (connectWithToken chatRoomId none p1).2)
    | (some req, p1) => (some req, p1)

/-- A call `connectAndSubscribe(chatRoomId)` suspended on its renewal exchange resumes
with the answer of that exchange (lines 41-47, then 221-271). -/
def connectResume (chatRoomId : Nat) (outcome : Except Thrown Response) (p : Page) :
    Except Thrown Unit × Page :=
  match reissueFinish outcome p with
  | (Except.error e, p1) => (Except.error e, p1)
  | (Except.ok token, p1) => connectWithToken chatRoomId token p1

/-- The `onConnect` callback of the client of index `c` (lines 247-251), run by the
library when the handshake of that client has succeeded. -/
def onConnect (c : Nat) (p : Page) : Page :=
  match p.clients.get? c with
  | none => p
  | some cl =>
    let p1 := { p with clients := modifyClient (fun x => { x with connected := true }) c p.clients }
    let p2 := p1.setWsStatus WsStatus.CONNECTED
    p2.unsubscribeCurrent.subscribe c (channelTopic cl.chatRoomId)

/-- The alert of line 261. -/
def authFailedAlert : String := "WebSocket 인증 실패. 다시 로그인 해주세요."

/-- The `onStompError` callback of the client of index `c` (lines 253-263). -/
def onStompError (server : Server) (c : Nat) (p : Page) : Except Thrown Unit × Page :=
  match p.clients.get? c with
  | none => (Except.ok (), p)
  | some cl =>
    match reissueAccessTokenFromCookie server p with
    | (Except.error e, p1) => (Except.error e, p1)
    | (Except.ok (some _), p1) =>
      let p2 := p1.deactivate c
      (Except.ok (), { p2 with timers := p2.timers ++ [cl.chatRoomId],
                               log := p2.log ++ [Event.setTimeout cl.chatRoomId] })
    | (Except.ok none, p1) =>
      (Except.ok (), (p1.setWsStatus WsStatus.DISCONNECTED).emit (Event.alert authFailedAlert))

/-- The `onWebSocketClose` callback of the client of index `c` (lines 265-267), run by
the library when the socket of that client has closed. -/
def onWebSocketClose (c : Nat) (p : Page) : Page :=
  let p1 := { p with clients := modifyClient (fun x => { x with connected := false }) c p.clients }
  p1.setWsStatus WsStatus.DISCONNECTED

/-- The oldest pending timer of line 258 fires: its callback calls
`connectAndSubscribe` with the `chatRoomId` it captured. -/
def fireTimer (server : Server) (p : Page) : Except Thrown Unit × Page :=
  match p.timers with
  | [] => (Except.ok (), p)
  | chatRoomId :: rest => connectAndSubscribe server chatRoomId { p with timers := rest }

/-! ## sendMessage (lines 275-297) -/

/-- The code points `String.prototype.trim` removes (WhiteSpace and LineTerminator). -/
def isJsWhiteSpace (c : Char) : Bool :=
  let n := c.toNat
  n = 0x09 || n = 0x0A || n = 0x0B || n = 0x0C || n = 0x0D || n = 0x20 || n = 0xA0 ||
  n = 0x1680 || (0x2000 ≤ n && n ≤ 0x200A) || n = 0x2028 || n = 0x2029 || n = 0x202F ||
  n = 0x205F || n = 0x3000 || n = 0xFEFF

/-- The test `!text.trim()`: the text is empty once trimmed. -/
def blank (text : String) : Bool :=
  text.toList.all isJsWhiteSpace

/-- The alert of line 277. -/
def noRoomAlert : String := "먼저 채팅방에 입장하세요."

/-- The alert of line 284. -/
def notConnectedAlert : String := "WebSocket이 연결되지 않았습니다."

/-- The call `sendMessage()` (lines 275-297). -/
def sendMessage (p : Page) : Page :=
  match p.room with
  | none => p.emit (Event.alert noRoomAlert)
  | some room =>
    if room.chatRoomId = 0 then p.emit (Event.alert noRoomAlert)
    else if blank p.messageText then p
    else
      match p.connectedClient with
      | none => p.emit (Event.alert notConnectedAlert)
      | some c =>
        { p with messageText := "",
                 log := p.log ++ [Event.publish c
                   { destination := PUB_PREFIX ++ "/message",
                     chatRoomId := room.chatRoomId, content := p.messageText }] }

/-! ## The page as a transition system -/

/-- What can happen to the page: a handler of the component runs, the STOMP library
runs one of the callbacks of a client, a timer fires, or the user edits a field. -/
inductive Action where
  | connectAndSubscribe (chatRoomId : Nat)
  | onConnect (client : Nat)
  | onStompError (client : Nat)
  | onWebSocketClose (client : Nat)
  | fireTimer
  | disconnectWs
  | handleLogout
  /-- The first half of `handleLogout`, up to the `await` of the revocation. -/
  | handleLogoutStart
  /-- The second half of `handleLogout`, on the answer of the revocation. -/
  | handleLogoutFinish (outcome : Except Thrown Response)
  /-- A call of `connectAndSubscribe` up to its `await` of the renewal exchange. -/
  | connectStart (chatRoomId : Nat)
  /-- A suspended call of `connectAndSubscribe` resumes on the answer of its exchange. -/
  | connectResume (chatRoomId : Nat) (outcome : Except Thrown Response)
  | sendMessage
  | onMessage (body : String)
  | httpRequest (fuel : Nat) (method url : String) (body : Option String)
  /-- The renewal of the initialisation effect (line 123). -/
  | reissue
  | setMessageText (text : String)
  /-- The statements `setRoom(data); setMessages(data.messages || [])` (lines 194-195). -/
  | setRoom (room : Room) (messages : List Json)
  | setMe (me : Identity)

/-- One action on the page. -/
def step (server : Server) (parse : String → Option Json) : Action → Page → Page
  | Action.connectAndSubscribe chatRoomId, p => (connectAndSubscribe server chatRoomId p).2
  | Action.onConnect c, p => onConnect c p
  | Action.onStompError c, p => (onStompError server c p).2
  | Action.onWebSocketClose c, p => onWebSocketClose c p
  | Action.fireTimer, p => (fireTimer server p).2
  | Action.disconnectWs, p => disconnectWs p
  | Action.handleLogout, p => handleLogout server p
  | Action.handleLogoutStart, p => handleLogoutStart p
  | Action.handleLogoutFinish outcome, p => handleLogoutFinish outcome p
  | Action.connectStart chatRoomId, p => (connectStart chatRoomId p).2
  | Action.connectResume chatRoomId outcome, p => (connectResume chatRoomId outcome p).2
  | Action.sendMessage, p => sendMessage p
  | Action.onMessage body, p => onMessage parse body p
  | Action.httpRequest fuel method url body, p => (httpRequest server fuel p method url body).2
  | Action.reissue, p => (reissueAccessTokenFromCookie server p).2
  | Action.setMessageText text, p => { p with messageText := text }
  | Action.setRoom room messages, p => { p with room := some room, messages := messages }
  | Action.setMe me, p => { p with me := some me }

/-- A sequence of actions, oldest first. -/
def run (server : Server) (parse : String → Option Json) (actions : List Action) (p : Page) : Page :=
  actions.foldl (fun q a => step server parse a q) p

/-- The pages the component can be in. -/
def Reachable (server : Server) (parse : String → Option Json) (p : Page) : Prop :=
  ∃ accessToken cookies actions, p = run server parse actions (Page.initial accessToken cookies)

/-! ## Measures and predicates used by the statements -/

/-- A `fetch` of `httpRequest` (line 67). -/
def isCall : Event → Bool
  | Event.fetch Site.call _ => true
  | _ => false

/-- A `fetch` of the renewal exchange (line 34). -/
def isExchange : Event → Bool
  | Event.fetch Site.exchange _ => true
  | _ => false

/-- An invocation of `reissueAccessTokenFromCookie`. -/
def isRenew : Event → Bool
  | Event.renew => true
  | _ => false

/-- A write of a renewed access token (line 46). -/
def isStore : Event → Bool
  | Event.setItem _ => true
  | _ => false

/-- A frame sent with `client.publish`. -/
def isPublish : Event → Bool
  | Event.publish _ _ => true
  | _ => false

/-- Any `fetch`. -/
def isFetch : Event → Bool
  | Event.fetch _ _ => true
  | _ => false

/-- A client is created or activated. -/
def isOpen : Event → Bool
  | Event.newClient _ => true
  | Event.activate _ => true
  | _ => false

/-- The refresh token `reissueAccessTokenFromCookie` sends: the cookie `refresh_token`,
when it is truthy. -/
def refreshCookie (p : Page) : Option String :=
  match getCookie (documentCookie p.cookies) "refresh_token" with
  | none => none
  | some t => if t = "" then none else some t

/-- What `reissueAccessTokenFromCookie` settles with on an answer of the exchange. -/
def exchangeResult : Except Thrown Response → Except Thrown (Option String)
  | Except.error e => Except.error e
  | Except.ok res =>
    if !res.ok then Except.ok none
    else match res.body with
      | Body.malformed => Except.error Thrown.malformedBody
      | Body.parsed none => Except.ok none
      | Body.parsed (some token) => if token = "" then Except.ok none else Except.ok (some token)

/-- Every active subscription is the one `subRef.current` holds. -/
def Page.subsTracked (p : Page) : Prop :=
  ∀ s ∈ p.activeSubs, p.subRef = some s

/-- Every client was configured with a non-empty bearer token. -/
def Page.clientsCredentialed (p : Page) : Prop :=
  ∀ cl ∈ p.clients, ∃ token, token ≠ "" ∧ cl.authorization = "Bearer " ++ token

/-- The page `q` has the STOMP session of the page `p`: the same clients, reference,
subscriptions, status and timers. -/
def Page.sameSession (p q : Page) : Prop :=
  q.subRef = p.subRef ∧ q.activeSubs = p.activeSubs ∧ q.clients = p.clients ∧
  q.wsStatus = p.wsStatus ∧ q.stompRef = p.stompRef ∧ q.timers = p.timers ∧
  q.nextSubId = p.nextSubId

/-- What holds of every reachable page: the active subscriptions are tracked, the
clients carry a credential, and the status is CONNECTED only when a client exists. -/
def Page.wellFormed (p : Page) : Prop :=
  p.subsTracked ∧ p.clientsCredentialed ∧ (p.wsStatus = WsStatus.CONNECTED → p.clients ≠ [])

/-! ## Concrete servers and pages -/

/-- The address of the renewal exchange. -/
def tokenUrl : String := API_BASE ++ "/api/token"

/-- A server whose renewal always succeeds with the token `fresh` and that answers
the first two calls of any other address with 401, every later one with 200. -/
def expiredTwice : Server := fun hist req =>
  if req.url = tokenUrl then Except.ok { status := 200, body := Body.parsed (some "fresh") }
  else if (hist.filter fun r => r.url = req.url).length < 2 then
    Except.ok { status := 401, body := Body.parsed none }
  else Except.ok { status := 200, body := Body.parsed none }

/-- A server whose renewal always succeeds with the token `fresh` and that answers
every other call with 401. -/
def alwaysExpired : Server := fun _ req =>
  if req.url = tokenUrl then Except.ok { status := 200, body := Body.parsed (some "fresh") }
  else Except.ok { status := 401, body := Body.parsed none }

/-- A server that has revoked the renewal credential: every call is answered 401. -/
def revoked : Server := fun _ _ =>
  Except.ok { status := 401, body := Body.parsed none }

/-- No network: every `fetch` rejects. -/
def offline : Server := fun _ _ =>
  Except.error (Thrown.network "Failed to fetch")

/-- A server whose renewal exchange is unreachable (the `fetch` rejects) and that
answers every other call with 401. -/
def exchangeDown : Server := fun _ req =>
  if req.url = tokenUrl then Except.error (Thrown.network "Failed to fetch")
  else Except.ok { status := 401, body := Body.parsed none }

/-- A server that answers every call with 401, the renewal exchange included, until one
exchange has been refused; every later exchange succeeds with the token `fresh`. -/
def recovering : Server := fun hist req =>
  if req.url = tokenUrl then
    if (hist.filter fun r => r.url = tokenUrl).length = 0 then
      Except.ok { status := 401, body := Body.parsed none }
    else Except.ok { status := 200, body := Body.parsed (some "fresh") }
  else Except.ok { status := 401, body := Body.parsed none }

/-- A server that answers every call with status 200 and a body that is not JSON. -/
def garbled : Server := fun _ _ =>
  Except.ok { status := 200, body := Body.malformed }

/-- A `JSON.parse` that accepts the text `null` only. -/
def parseNull : String → Option Json := fun body =>
  if body = "null" then some Json.null else none

/-- A page with a stale access token and a renewal cookie. -/
def stalePage : Page := Page.initial (some "stale") [("refresh_token", "r1")]

/-- A page with an access token and no renewal cookie visible to scripts. -/
def tokenOnlyPage : Page := Page.initial (some "tok") []

/-- A page with neither an access token nor a renewal cookie. -/
def anonymousPage : Page := Page.initial none []

/-- A session in progress: from `stalePage`, a connection was opened for room 42 and its
handshake succeeded. -/
def sessionPage : Page :=
  run alwaysExpired parseNull [Action.connectAndSubscribe 42, Action.onConnect 0] stalePage

/-- A session whose access token was cleared by a failed call: from `tokenOnlyPage`, a
connection was opened for room 42, its handshake succeeded, then a call of `httpRequest`
was answered 401 and renewal returned null. -/
def orphanedSessionPage : Page :=
  run revoked parseNull
    [Action.connectAndSubscribe 42, Action.onConnect 0,
     Action.httpRequest 1 "POST" "/v1/chatRoom" none] tokenOnlyPage

/-- A connected session whose access token has to be renewed: from `stalePage`, a
connection was opened for room 42 and its handshake succeeded, then a call of
`httpRequest` was answered 401 and its renewal was refused, which removed the token;
the renewal cookie is still there. -/
def expiredSessionPage : Page :=
  run recovering parseNull
    [Action.connectAndSubscribe 42, Action.onConnect 0,
     Action.httpRequest 1 "POST" "/v1/chatRoom" none] stalePage

/-- The answer of a renewal exchange that succeeds with the token `fresh`. -/
def freshAnswer : Except Thrown Response :=
  Except.ok { status := 200, body := Body.parsed (some "fresh") }

/-- The session of `sessionPage` right after the STOMP error handler of its client has
renewed the token and scheduled the reconnect of line 258. -/
def reconnectPendingPage : Page :=
  run alwaysExpired parseNull
    [Action.connectAndSubscribe 42, Action.onConnect 0, Action.onStompError 0] stalePage

/-- A page in room 7 with a blank draft and no client. -/
def blankDraftPage : Page :=
  { Page.initial (some "tok") [] with room := some { chatRoomId := 7 }, messageText := " " }

/-- The session of `sessionPage` after the user entered room 42 and typed `hi`. -/
def draftPage : Page :=
  { sessionPage with room := some { chatRoomId := 42 }, messageText := "hi" }

/-! # Theorems -/

/-! ## Token renewal -/

theorem reissueStart_none (p : Page) (h : refreshCookie p = none) :
    reissueStart p = (none, p.emit Event.renew) := by
  unfold refreshCookie at h
  unfold reissueStart
  simp only [Page.emit] at *
  split at h
  · rename_i h1; simp [h1]
  · rename_i t h1
    split at h
    · rename_i h2; simp [h1, h2]
    · simp at h

theorem reissueStart_some (p : Page) (rt : String) (h : refreshCookie p = some rt) :
    reissueStart p = (some (tokenRequest rt),
      (p.emit Event.renew).emit (Event.fetch Site.exchange (tokenRequest rt))) := by
  unfold refreshCookie at h
  unfold reissueStart
  simp only [Page.emit] at *
  split at h
  · simp at h
  · rename_i t h1
    split at h
    · simp at h
    · rename_i h2
      simp only [Option.some.injEq] at h
      subst h
      simp [h1, h2]

theorem reissueFinish_fst (o : Except Thrown Response) (p : Page) :
    (reissueFinish o p).1 = exchangeResult o := by
  unfold reissueFinish exchangeResult
  rcases o with e | res
  · rfl
  · dsimp only
    split
    · rfl
    · rcases res.body with _ | (_ | token)
      · rfl
      · rfl
      · dsimp only
        split <;> rfl

theorem reissueFinish_snd (o : Except Thrown Response) (p : Page) :
    (reissueFinish o p).2 =
      match exchangeResult o with
      | Except.ok (some token) =>
        { p with accessToken := some token, log := p.log ++ [Event.setItem token] }
      | _ => p := by
  unfold reissueFinish exchangeResult
  rcases o with e | res
  · rfl
  · dsimp only
    split
    · rfl
    · rcases res.body with _ | (_ | token)
      · rfl
      · rfl
      · dsimp only
        split <;> rfl

theorem exchangeResult_token (o : Except Thrown Response) (token : String)
    (h : exchangeResult o = Except.ok (some token)) : token ≠ "" := by
  unfold exchangeResult at h
  rcases o with e | res
  · simp at h
  · dsimp only at h
    split at h
    · simp at h
    · rcases hb : res.body with _ | (_ | t)
      · simp [hb] at h
      · simp [hb] at h
      · rw [hb] at h
        dsimp only at h
        split at h
        · simp at h
        · rename_i hne
          simp only [Except.ok.injEq, Option.some.injEq] at h
          exact h ▸ hne

theorem reissue_of_none (server : Server) (p : Page) (h : refreshCookie p = none) :
    reissueAccessTokenFromCookie server p = (Except.ok none, p.emit Event.renew) := by
  unfold reissueAccessTokenFromCookie
  rw [reissueStart_none p h]

theorem reissue_of_some (server : Server) (p : Page) (rt : String) (h : refreshCookie p = some rt) :
    reissueAccessTokenFromCookie server p =
      reissueFinish (server (history p.log) (tokenRequest rt))
        ((p.emit Event.renew).emit (Event.fetch Site.exchange (tokenRequest rt))) := by
  unfold reissueAccessTokenFromCookie
  rw [reissueStart_some p rt h]

/-- A renewal touches the stored access token and the log, nothing else; it writes the
token exactly when it returns one, and the token it returns is not empty. -/
theorem reissue_page (server : Server) (p : Page) :
    ∃ ev, (reissueAccessTokenFromCookie server p).2 =
        { p with accessToken := (reissueAccessTokenFromCookie server p).2.accessToken,
                 log := p.log ++ ev } ∧
      ev.countP isRenew = 1 ∧ ev.countP isCall = 0 ∧ ev.countP isExchange ≤ 1 ∧
      ev.countP isOpen = 0 ∧
      (match (reissueAccessTokenFromCookie server p).1 with
       | Except.ok (some token) =>
         token ≠ "" ∧ (reissueAccessTokenFromCookie server p).2.accessToken = some token ∧
         ev.countP isStore = 1
       | _ =>
         (reissueAccessTokenFromCookie server p).2.accessToken = p.accessToken ∧
         ev.countP isStore = 0) := by
  cases h : refreshCookie p with
  | none =>
    rw [reissue_of_none server p h]
    exact ⟨[Event.renew], by simp [Page.emit], by simp [isRenew], by simp [isCall],
      by simp [isExchange], by simp [isOpen], by simp [Page.emit, isStore]⟩
  | some rt =>
    rw [reissue_of_some server p rt h, reissueFinish_fst, reissueFinish_snd]
    have htok := exchangeResult_token (server (history p.log) (tokenRequest rt))
    generalize exchangeResult (server (history p.log) (tokenRequest rt)) = r at htok
    rcases r with e | (_ | token)
    · exact ⟨[Event.renew, Event.fetch Site.exchange (tokenRequest rt)],
        by simp [Page.emit], by simp [isRenew], by simp [isCall], by simp [isExchange],
        by simp [isOpen], by simp [Page.emit, isStore]⟩
    · exact ⟨[Event.renew, Event.fetch Site.exchange (tokenRequest rt)],
        by simp [Page.emit], by simp [isRenew], by simp [isCall], by simp [isExchange],
        by simp [isOpen], by simp [Page.emit, isStore]⟩
    · exact ⟨[Event.renew, Event.fetch Site.exchange (tokenRequest rt), Event.setItem token],
        by simp [Page.emit], by simp [isRenew], by simp [isCall], by simp [isExchange],
        by simp [isOpen], by simpa [Page.emit, isStore] using htok token rfl⟩

/-- C3, as stated, fails: with a renewal cookie present, a `fetch` that rejects makes
`reissueAccessTokenFromCookie` reject with the network failure, and a success answer
whose body is not JSON makes it reject with the parse failure; neither returns null. -/
theorem reissue_rejects_on_network_or_malformed :
    (reissueAccessTokenFromCookie offline stalePage).1
        = Except.error (Thrown.network "Failed to fetch") ∧
    (reissueAccessTokenFromCookie offline stalePage).1 ≠ Except.ok none ∧
    (reissueAccessTokenFromCookie garbled stalePage).1 = Except.error Thrown.malformedBody ∧
    (reissueAccessTokenFromCookie garbled stalePage).1 ≠ Except.ok none := by
  refine ⟨by rfl, ?_, by rfl, ?_⟩
  · intro h
    have h2 : (reissueAccessTokenFromCookie offline stalePage).1
        = Except.error (Thrown.network "Failed to fetch") := by rfl
    rw [h2] at h
    cases h
  · intro h
    have h2 : (reissueAccessTokenFromCookie garbled stalePage).1
        = Except.error Thrown.malformedBody := by rfl
    rw [h2] at h
    cases h

/-- C3, amended: `reissueAccessTokenFromCookie` leaves the stored access token unchanged
whenever it does not return a token. It returns null when there is no renewal cookie
(no call is made), when the exchange is answered with a non-success status, and when
the body is well formed but holds no non-empty `accessToken`; it rejects with the
failure of the network when `fetch` rejects, and with the parse failure when the body
of a success answer is malformed. -/
theorem reissue_failure_outcomes (server : Server) (p : Page) :
    ((∀ token, (reissueAccessTokenFromCookie server p).1 ≠ Except.ok (some token)) →
      (reissueAccessTokenFromCookie server p).2.accessToken = p.accessToken) ∧
    (refreshCookie p = none →
      reissueAccessTokenFromCookie server p = (Except.ok none, p.emit Event.renew)) ∧
    (∀ rt, refreshCookie p = some rt →
      (∀ e, server (history p.log) (tokenRequest rt) = Except.error e →
        (reissueAccessTokenFromCookie server p).1 = Except.error e) ∧
      (∀ res, server (history p.log) (tokenRequest rt) = Except.ok res → res.ok = false →
        (reissueAccessTokenFromCookie server p).1 = Except.ok none) ∧
      (∀ res, server (history p.log) (tokenRequest rt) = Except.ok res → res.ok = true →
        res.body = Body.malformed →
        (reissueAccessTokenFromCookie server p).1 = Except.error Thrown.malformedBody) ∧
      (∀ res, server (history p.log) (tokenRequest rt) = Except.ok res → res.ok = true →
        (res.body = Body.parsed none ∨ res.body = Body.parsed (some "")) →
        (reissueAccessTokenFromCookie server p).1 = Except.ok none)) := by
  refine ⟨?_, fun h => reissue_of_none server p h, ?_⟩
  · intro h
    obtain ⟨ev, -, -, -, -, -, hm⟩ := reissue_page server p
    rcases hr : (reissueAccessTokenFromCookie server p).1 with e | (_ | token)
    · rw [hr] at hm; exact hm.1
    · rw [hr] at hm; exact hm.1
    · exact absurd hr (h token)
  · intro rt hrt
    rw [reissue_of_some server p rt hrt, reissueFinish_fst]
    refine ⟨?_, ?_, ?_, ?_⟩
    · intro e he; rw [he]; rfl
    · intro res he hok; rw [he]; simp [exchangeResult, hok]
    · intro res he hok hb; rw [he]; simp [exchangeResult, hok, hb]
    · intro res he hok hb
      rw [he]
      rcases hb with hb | hb <;> simp [exchangeResult, hok, hb]

/-- Witness: a revoked renewal credential (status 401)
gives null and leaves the stored token `stale` in place. -/
theorem reissue_failure_outcomes_witness :
    (reissueAccessTokenFromCookie revoked stalePage).1 = Except.ok none ∧
    (reissueAccessTokenFromCookie revoked stalePage).2.accessToken = some "stale" :=
  ⟨((reissue_failure_outcomes revoked stalePage).2.2 "r1" (by decide)).2.1
      { status := 401, body := Body.parsed none } (by rfl) (by decide),
   (reissue_failure_outcomes revoked stalePage).1 (fun token h => by
      have h2 : (reissueAccessTokenFromCookie revoked stalePage).1 = Except.ok none := by rfl
      rw [h2] at h
      cases h)⟩

/-- C4, as stated, fails: two callers that invoke renewal before the first exchange
is answered issue two exchange calls, and each caller settles with the answer to its
own call (here the first gets the token `a`, the second null). -/
theorem reissue_not_single_flight :
    (reissueStart (reissueStart stalePage).2).2.log.countP isExchange = 2 ∧
    (reissueFinish (Except.ok { status := 200, body := Body.parsed (some "a") })
        (reissueStart (reissueStart stalePage).2).2).1 = Except.ok (some "a") ∧
    (reissueFinish (Except.ok { status := 401, body := Body.parsed none })
        (reissueStart (reissueStart stalePage).2).2).1 = Except.ok none := by
  refine ⟨by decide, by rfl, by rfl⟩

theorem reissueStart_refreshCookie (p : Page) : refreshCookie (reissueStart p).2 = refreshCookie p := by
  cases h : refreshCookie p with
  | none => rw [reissueStart_none p h]; simpa [refreshCookie, Page.emit] using h
  | some rt => rw [reissueStart_some p rt h]; simpa [refreshCookie, Page.emit] using h

/-- C4, amended: renewal is not shared between callers. With a renewal cookie
present, each of `k` invocations made while the earlier exchanges are still
outstanding issues its own exchange call, and what a caller settles with depends on the
answer to its own call only, not on the page the other callers left. -/
theorem reissue_one_exchange_per_caller (p : Page) (rt : String) (k : Nat)
    (h : refreshCookie p = some rt) :
    ((fun q => (reissueStart q).2)^[k] p).log.countP isExchange
        = p.log.countP isExchange + k ∧
    ((fun q => (reissueStart q).2)^[k] p).log.countP isRenew = p.log.countP isRenew + k ∧
    (∀ (o : Except Thrown Response) (q : Page), (reissueFinish o q).1 = (reissueFinish o p).1) := by
  refine ⟨?_, ?_, fun o q => by rw [reissueFinish_fst, reissueFinish_fst]⟩
  · induction k generalizing p with
    | zero => simp
    | succ k ih =>
      rw [Function.iterate_succ_apply, ih (reissueStart p).2 (by rw [reissueStart_refreshCookie, h]),
        reissueStart_some p rt h]
      simp [Page.emit, isExchange]
      omega
  · induction k generalizing p with
    | zero => simp
    | succ k ih =>
      rw [Function.iterate_succ_apply, ih (reissueStart p).2 (by rw [reissueStart_refreshCookie, h]),
        reissueStart_some p rt h]
      simp [Page.emit, isRenew]
      omega

/-- Witness: three callers, three exchanges. -/
theorem reissue_one_exchange_per_caller_witness :
    refreshCookie stalePage = some "r1" ∧
    ((fun q => (reissueStart q).2)^[3] stalePage).log.countP isExchange = 3 :=
  ⟨by decide, by
    have h := (reissue_one_exchange_per_caller stalePage "r1" 3 (by decide)).1
    simpa [stalePage, Page.initial] using h⟩

/-! ## httpRequest -/

/-- C1, as stated, fails: against a server that answers the first two calls with 401
while renewal succeeds, one call of `httpRequest` issues the original call three times
and invokes renewal twice before it returns the third answer. -/
theorem httpRequest_retries_twice :
    (httpRequest expiredTwice 3 stalePage "POST" "/v1/chatRoom" none).1
        = some (Except.ok { status := 200, body := Body.parsed none }) ∧
    (httpRequest expiredTwice 3 stalePage "POST" "/v1/chatRoom" none).2.log.countP isCall = 3 ∧
    (httpRequest expiredTwice 3 stalePage "POST" "/v1/chatRoom" none).2.log.countP isRenew = 2 := by
  refine ⟨by rfl, by decide, by decide⟩

/-- C1, amended: `httpRequest` retries after every 401 answer whose renewal returned a
token, without a bound. Among the effects of one call, renewal is invoked at most
once per issued call, a token is stored at most once per renewal, and the original call
is issued at most once more than tokens were stored, exactly once more when the call
has settled; while it has not settled after `fuel` rounds it has issued `fuel` calls,
each followed by a successful renewal. -/
theorem httpRequest_effects (server : Server) (fuel : Nat) (p : Page)
    (method url : String) (body : Option String) :
    ∃ ev, (httpRequest server fuel p method url body).2.log = p.log ++ ev ∧
      ev.countP isStore ≤ ev.countP isRenew ∧
      ev.countP isRenew ≤ ev.countP isCall ∧
      ev.countP isCall ≤ ev.countP isStore + 1 ∧
      ev.countP isCall ≤ fuel ∧
      ((httpRequest server fuel p method url body).1.isSome = true →
        ev.countP isCall = ev.countP isStore + 1) ∧
      ((httpRequest server fuel p method url body).1 = none →
        ev.countP isCall = fuel ∧ ev.countP isStore = fuel) := by
  induction fuel generalizing p with
  | zero => exact ⟨[], by simp [httpRequest]⟩
  | succ fuel ih =>
    unfold httpRequest
    dsimp only
    rcases hs : server (history p.log) (callRequest p method url body) with e | res
    · exact ⟨[Event.fetch Site.call (callRequest p method url body)],
        by simp [Page.emit], by simp [isStore, isRenew, isCall]⟩
    · dsimp only
      by_cases hok : res.ok = true
      · rw [if_pos hok]
        exact ⟨[Event.fetch Site.call (callRequest p method url body)],
          by simp [Page.emit], by simp [isStore, isRenew, isCall]⟩
      · rw [if_neg hok]
        by_cases h401 : res.status = 401
        · rw [if_pos h401]
          obtain ⟨evr, hpage, hrenew, hcall, -, -, hm⟩ :=
            reissue_page server (p.emit (Event.fetch Site.call (callRequest p method url body)))
          have hlog := congrArg Page.log hpage
          rcases hr : reissueAccessTokenFromCookie server
              (p.emit (Event.fetch Site.call (callRequest p method url body))) with ⟨r, p2⟩
          rw [hr] at hlog hm
          dsimp only at hlog hm
          rcases r with e | (_ | token)
          · refine ⟨Event.fetch Site.call (callRequest p method url body) :: evr, ?_, ?_⟩
            · simp [hlog, Page.emit]
            · simp [List.countP_cons, isStore, isRenew, isCall, hrenew, hcall, hm.2]
          · refine ⟨Event.fetch Site.call (callRequest p method url body) :: evr
              ++ [Event.removeItem], ?_, ?_⟩
            · simp [hlog, Page.emit]
            · simp [List.countP_cons, isStore, isRenew, isCall, hrenew, hcall, hm.2]
          · obtain ⟨ev, h1, h2, h3, h4, h5, h6, h7⟩ := ih p2
            refine ⟨Event.fetch Site.call (callRequest p method url body) :: evr ++ ev, ?_, ?_⟩
            · simp [h1, hlog, Page.emit]
            · simp only [List.cons_append, List.countP_cons, List.countP_append, isStore,
                isRenew, isCall, hrenew, hcall, hm.2.2]
              simp
              refine ⟨by omega, by omega, by omega, by omega, ?_, ?_⟩
              · intro h; have := h6 h; omega
              · intro h; have := h7 h; omega
        · rw [if_neg h401]
          exact ⟨[Event.fetch Site.call (callRequest p method url body)],
            by simp [Page.emit], by simp [isStore, isRenew, isCall]⟩

/-- A renewal keeps the renewal cookie. -/
theorem reissue_refreshCookie (server : Server) (p : Page) :
    refreshCookie (reissueAccessTokenFromCookie server p).2 = refreshCookie p := by
  obtain ⟨ev, hpage, -⟩ := reissue_page server p
  rw [hpage]
  rfl

/-- The loop C1 excludes: while every call is answered 401 and every renewal succeeds,
`httpRequest` does not settle, whatever the number of rounds it is given. -/
theorem httpRequest_never_settles (fuel : Nat) (p : Page) (rt method url : String)
    (body : Option String) (hrt : refreshCookie p = some rt) (hurl : fullUrl url ≠ tokenUrl) :
    (httpRequest alwaysExpired fuel p method url body).1 = none := by
  induction fuel generalizing p with
  | zero => rfl
  | succ fuel ih =>
    unfold httpRequest
    have hs : alwaysExpired (history p.log) (callRequest p method url body)
        = Except.ok { status := 401, body := Body.parsed none } := by
      simp [alwaysExpired, callRequest, hurl]
    have hrt1 : refreshCookie (p.emit (Event.fetch Site.call (callRequest p method url body)))
        = some rt := hrt
    have hre := reissue_of_some alwaysExpired _ rt hrt1
    have hx : alwaysExpired
        (history (p.emit (Event.fetch Site.call (callRequest p method url body))).log)
        (tokenRequest rt) = Except.ok { status := 200, body := Body.parsed (some "fresh") } := by
      simp [alwaysExpired, tokenRequest, tokenUrl]
    rw [hx] at hre
    have hrc := reissue_refreshCookie alwaysExpired
      (p.emit (Event.fetch Site.call (callRequest p method url body)))
    rw [hrt1] at hrc
    dsimp only
    rw [hs]
    dsimp only
    rw [if_neg (by decide), if_pos rfl]
    rcases hr : reissueAccessTokenFromCookie alwaysExpired
        (p.emit (Event.fetch Site.call (callRequest p method url body))) with ⟨r, p2⟩
    rw [hr] at hre hrc
    have hfst : r = Except.ok (some "fresh") := by
      have := congrArg Prod.fst hre
      rw [reissueFinish_fst] at this
      exact this.trans (by rfl)
    subst hfst
    exact ih p2 hrc

/-- C2, as stated, fails: when the call is answered 401 and the renewal exchange cannot
be reached, renewal yields no credential by rejecting, and `httpRequest` rejects with
the network failure, not with `UNAUTHORIZED`; the stored access token is still there. -/
theorem httpRequest_rejects_with_renewal :
    (httpRequest exchangeDown 1 stalePage "POST" "/v1/chatRoom" none).1
        = some (Except.error (Thrown.network "Failed to fetch")) ∧
    (httpRequest exchangeDown 1 stalePage "POST" "/v1/chatRoom" none).1
        ≠ some (Except.error (Thrown.error "UNAUTHORIZED")) ∧
    (httpRequest exchangeDown 1 stalePage "POST" "/v1/chatRoom" none).2.accessToken
        = some "stale" := by
  refine ⟨by rfl, ?_, by rfl⟩
  have h : (httpRequest exchangeDown 1 stalePage "POST" "/v1/chatRoom" none).1
      = some (Except.error (Thrown.network "Failed to fetch")) := by rfl
  rw [h]
  intro hc
  cases hc

/-- C2, amended: when the call is answered 401 and renewal returns null, `httpRequest`
settles with the error `UNAUTHORIZED` and the stored access token is absent afterwards;
when renewal rejects instead (the exchange fails on the network, or its body is
malformed), `httpRequest` rejects with that same failure and leaves the stored access
token as it was. In both cases the original call was issued once and renewal invoked
once. -/
theorem httpRequest_after_failed_renewal (server : Server) (fuel : Nat) (p : Page)
    (method url : String) (body : Option String) (res : Response)
    (hres : server (history p.log) (callRequest p method url body) = Except.ok res)
    (h401 : res.status = 401) :
    ((reissueAccessTokenFromCookie server
        (p.emit (Event.fetch Site.call (callRequest p method url body)))).1 = Except.ok none →
      (httpRequest server (fuel + 1) p method url body).1
          = some (Except.error (Thrown.error "UNAUTHORIZED")) ∧
      (httpRequest server (fuel + 1) p method url body).2.accessToken = none ∧
      ∃ ev, (httpRequest server (fuel + 1) p method url body).2.log
          = p.log ++ Event.fetch Site.call (callRequest p method url body) :: ev ∧
        ev.countP isCall = 0 ∧ ev.countP isRenew = 1) ∧
    (∀ e, (reissueAccessTokenFromCookie server
        (p.emit (Event.fetch Site.call (callRequest p method url body)))).1 = Except.error e →
      (httpRequest server (fuel + 1) p method url body).1 = some (Except.error e) ∧
      (httpRequest server (fuel + 1) p method url body).2.accessToken = p.accessToken ∧
      ∃ ev, (httpRequest server (fuel + 1) p method url body).2.log
          = p.log ++ Event.fetch Site.call (callRequest p method url body) :: ev ∧
        ev.countP isCall = 0 ∧ ev.countP isRenew = 1) := by
  obtain ⟨evr, hpage, hrenew1, hcall, -, -, hm⟩ :=
    reissue_page server (p.emit (Event.fetch Site.call (callRequest p method url body)))
  have hlog := congrArg Page.log hpage
  have hok : res.ok = false := by simp [Response.ok, h401]
  constructor
  · intro hrenew
    unfold httpRequest
    dsimp only
    rw [hres]
    dsimp only
    rw [hok, if_neg (by decide), if_pos h401]
    rcases hr : reissueAccessTokenFromCookie server
        (p.emit (Event.fetch Site.call (callRequest p method url body))) with ⟨r, p2⟩
    rw [hr] at hrenew hlog
    dsimp only at hrenew hlog
    subst hrenew
    refine ⟨rfl, rfl, evr ++ [Event.removeItem], ?_, ?_⟩
    · simp [hlog, Page.emit]
    · simp [List.countP_append, hcall, hrenew1, isCall, isRenew]
  · intro e hrenew
    rw [hrenew] at hm
    dsimp only at hm
    unfold httpRequest
    dsimp only
    rw [hres]
    dsimp only
    rw [hok, if_neg (by decide), if_pos h401]
    rcases hr : reissueAccessTokenFromCookie server
        (p.emit (Event.fetch Site.call (callRequest p method url body))) with ⟨r, p2⟩
    rw [hr] at hrenew hlog hm
    dsimp only at hrenew hlog hm
    subst hrenew
    refine ⟨rfl, hm.1, evr, ?_, hcall, hrenew1⟩
    simp [hlog, Page.emit]

/-- Witness: with the renewal credential revoked the call fails with `UNAUTHORIZED` and
the token is gone; with the exchange unreachable the call rejects with the network
failure and the token stays. -/
theorem httpRequest_after_failed_renewal_witness :
    (httpRequest revoked 1 stalePage "POST" "/v1/chatRoom" none).1
        = some (Except.error (Thrown.error "UNAUTHORIZED")) ∧
    (httpRequest revoked 1 stalePage "POST" "/v1/chatRoom" none).2.accessToken = none ∧
    (httpRequest exchangeDown 1 stalePage "POST" "/v1/chatRoom" none).2.accessToken
        = some "stale" :=
  ⟨((httpRequest_after_failed_renewal revoked 0 stalePage "POST" "/v1/chatRoom" none
      { status := 401, body := Body.parsed none } (by rfl) (by rfl)).1 (by rfl)).1,
   ((httpRequest_after_failed_renewal revoked 0 stalePage "POST" "/v1/chatRoom" none
      { status := 401, body := Body.parsed none } (by rfl) (by rfl)).1 (by rfl)).2.1,
   ((httpRequest_after_failed_renewal exchangeDown 0 stalePage "POST" "/v1/chatRoom" none
      { status := 401, body := Body.parsed none } (by rfl) (by rfl)).2
      (Thrown.network "Failed to fetch") (by rfl)).2.1⟩

/-! ## The STOMP session -/

/-- The function `ensureToken` touches the stored access token and the log, nothing else, opens no
connection, and the token it resolves is the stored one afterwards. -/
theorem ensureToken_page (server : Server) (p : Page) :
    ∃ ev, (ensureToken server p).2 =
        { p with accessToken := (ensureToken server p).2.accessToken, log := p.log ++ ev } ∧
      ev.countP isOpen = 0 ∧
      (match (ensureToken server p).1 with
       | Except.ok (some token) => (ensureToken server p).2.accessToken = some token
       | _ => (ensureToken server p).2.accessToken = p.accessToken) := by
  unfold ensureToken
  by_cases h : truthy p.accessToken = true
  · rw [if_pos h]
    refine ⟨[], by simp, by simp, ?_⟩
    dsimp only
    cases p.accessToken <;> rfl
  · rw [if_neg h]
    obtain ⟨ev, hpage, -, -, -, hopen, hm⟩ := reissue_page server p
    refine ⟨ev, hpage, hopen, ?_⟩
    rcases hr : (reissueAccessTokenFromCookie server p).1 with e | (_ | token)
    · rw [hr] at hm; exact hm.1
    · rw [hr] at hm; exact hm.1
    · rw [hr] at hm; exact hm.2.1

theorem ensureToken_of_truthy (server : Server) (p : Page) (h : truthy p.accessToken = true) :
    ensureToken server p = (Except.ok p.accessToken, p) := by
  unfold ensureToken
  rw [if_pos h]

theorem ensureToken_connectedClient (server : Server) (p : Page) :
    (ensureToken server p).2.connectedClient = p.connectedClient := by
  obtain ⟨ev, hpage, -⟩ := ensureToken_page server p
  rw [hpage]; rfl

/-- With a connected client and a resolved token, `connectAndSubscribe` takes the branch
of lines 231-235. -/
theorem connectAndSubscribe_of_connected (server : Server) (chatRoomId : Nat) (p : Page)
    (c : Nat) (token : String) (hc : p.connectedClient = some c)
    (htok : (ensureToken server p).1 = Except.ok (some token)) (hne : token ≠ "") :
    connectAndSubscribe server chatRoomId p =
      (Except.ok (), (ensureToken server p).2.unsubscribeCurrent.subscribe c
        (channelTopic chatRoomId)) := by
  have hcc := ensureToken_connectedClient server p
  unfold connectAndSubscribe
  rcases he : ensureToken server p with ⟨r, p1⟩
  rw [he] at htok hcc
  dsimp only at htok hcc
  subst htok
  dsimp only
  rw [if_neg hne, hcc, hc]

/-- Replacing the subscription of a page whose active subscriptions are tracked leaves
the new subscription as the only active one. -/
theorem resubscribe_activeSubs (p : Page) (c : Nat) (topic : String) (h : p.subsTracked) :
    (p.unsubscribeCurrent.subscribe c topic).activeSubs
      = [{ id := p.nextSubId, client := c, topic := topic }] := by
  unfold Page.subsTracked at h
  unfold Page.unsubscribeCurrent
  cases hs : p.subRef with
  | none =>
    have : p.activeSubs = [] := by
      rcases hl : p.activeSubs with _ | ⟨s, l⟩
      · rfl
      · have := h s (by rw [hl]; exact List.mem_cons_self _ _)
        rw [hs] at this
        cases this
    simp [Page.subscribe, this]
  | some sub =>
    have : p.activeSubs.filter (fun s => s != sub) = [] := by
      rw [List.filter_eq_nil_iff]
      intro s hmem
      have := h s hmem
      rw [hs] at this
      simp only [Option.some.injEq] at this
      simp [this]
    simp [Page.subscribe, Page.unsubscribe, this]

theorem resubscribe_fields (p : Page) (c : Nat) (topic : String) :
    (p.unsubscribeCurrent.subscribe c topic).stompRef = p.stompRef ∧
    (p.unsubscribeCurrent.subscribe c topic).clients = p.clients ∧
    (p.unsubscribeCurrent.subscribe c topic).wsStatus = p.wsStatus ∧
    (p.unsubscribeCurrent.subscribe c topic).accessToken = p.accessToken ∧
    (p.unsubscribeCurrent.subscribe c topic).cookies = p.cookies ∧
    (p.unsubscribeCurrent.subscribe c topic).nextSubId = p.nextSubId + 1 ∧
    (p.unsubscribeCurrent.subscribe c topic).subRef
      = some { id := p.nextSubId, client := c, topic := topic } ∧
    (p.unsubscribeCurrent.subscribe c topic).log
      = p.log ++ p.subRef.toList.map Event.unsubscribe
          ++ [Event.subscribe { id := p.nextSubId, client := c, topic := topic }] := by
  unfold Page.unsubscribeCurrent
  cases hs : p.subRef <;> simp [Page.subscribe, Page.unsubscribe, hs]

theorem resubscribe_subsTracked (p : Page) (c : Nat) (topic : String) (h : p.subsTracked) :
    (p.unsubscribeCurrent.subscribe c topic).subsTracked := by
  intro s hs
  rw [resubscribe_activeSubs p c topic h] at hs
  rw [(resubscribe_fields p c topic).2.2.2.2.2.2.1]
  simp only [List.mem_singleton] at hs
  rw [hs]

/-- The call of `connectAndSubscribe` that finds a connected client, run with nothing in
between: no connection is opened, the held subscription is unsubscribed before the new
one is made, and the new one is the only active subscription; a second such call run
after the first has ended leaves the subscription of the second. -/
theorem connectAndSubscribe_connected_run (server : Server) (p : Page) (c : Nat)
    (token : String) (chatRoomId laterId : Nat)
    (hinv : p.subsTracked) (hc : p.connectedClient = some c)
    (htok : (ensureToken server p).1 = Except.ok (some token)) (hne : token ≠ "") :
    (connectAndSubscribe server chatRoomId p).1 = Except.ok () ∧
    (connectAndSubscribe server chatRoomId p).2.stompRef = p.stompRef ∧
    (connectAndSubscribe server chatRoomId p).2.clients = p.clients ∧
    (connectAndSubscribe server chatRoomId p).2.wsStatus = p.wsStatus ∧
    (∃ ev, ev.countP isOpen = 0 ∧ (ensureToken server p).2.log = p.log ++ ev ∧
      (connectAndSubscribe server chatRoomId p).2.log
        = p.log ++ ev ++ p.subRef.toList.map Event.unsubscribe
          ++ [Event.subscribe { id := p.nextSubId, client := c,
                                topic := "/sub/channel/" ++ toString chatRoomId }]) ∧
    (connectAndSubscribe server chatRoomId p).2.activeSubs
      = [{ id := p.nextSubId, client := c, topic := "/sub/channel/" ++ toString chatRoomId }] ∧
    (connectAndSubscribe server chatRoomId p).2.subRef
      = some { id := p.nextSubId, client := c, topic := "/sub/channel/" ++ toString chatRoomId } ∧
    (∀ token2, (ensureToken server (connectAndSubscribe server chatRoomId p).2).1
          = Except.ok (some token2) → token2 ≠ "" →
      (connectAndSubscribe server laterId (connectAndSubscribe server chatRoomId p).2).2.activeSubs
        = [{ id := p.nextSubId + 1, client := c,
             topic := "/sub/channel/" ++ toString laterId }] ∧
      (connectAndSubscribe server laterId (connectAndSubscribe server chatRoomId p).2).2.stompRef
        = p.stompRef ∧
      (connectAndSubscribe server laterId (connectAndSubscribe server chatRoomId p).2).2.clients
        = p.clients) ∧
    (truthy p.accessToken = true →
      (ensureToken server (connectAndSubscribe server chatRoomId p).2).1
        = Except.ok (some token)) := by
  have htopic : ∀ n : Nat, channelTopic n = "/sub/channel/" ++ toString n := by
    intro n; simp [channelTopic, SUB_PREFIX, String.append_assoc]
  obtain ⟨ev, hpage, hopen, hm⟩ := ensureToken_page server p
  rw [htok] at hm
  dsimp only at hm
  have hinv1 : (ensureToken server p).2.subsTracked := by rw [hpage]; exact hinv
  have hsub1 : (ensureToken server p).2.subRef = p.subRef := by rw [hpage]
  have hnext1 : (ensureToken server p).2.nextSubId = p.nextSubId := by rw [hpage]
  have hfld := resubscribe_fields (ensureToken server p).2 c (channelTopic chatRoomId)
  have hact := resubscribe_activeSubs (ensureToken server p).2 c (channelTopic chatRoomId) hinv1
  have heq := connectAndSubscribe_of_connected server chatRoomId p c token hc htok hne
  rw [htopic] at heq
  rw [heq]
  dsimp only
  rw [hnext1, htopic] at hact
  rw [hnext1, hsub1, htopic] at hfld
  have hq_cc : ((ensureToken server p).2.unsubscribeCurrent.subscribe c
      ("/sub/channel/" ++ toString chatRoomId)).connectedClient = some c := by
    have : ((ensureToken server p).2.unsubscribeCurrent.subscribe c
      ("/sub/channel/" ++ toString chatRoomId)).connectedClient
        = (ensureToken server p).2.connectedClient := by
      unfold Page.connectedClient
      rw [hfld.1, hfld.2.1]
    rw [this, ensureToken_connectedClient, hc]
  refine ⟨rfl, ?_, ?_, ?_, ⟨ev, hopen, ?_, ?_⟩, hact, hfld.2.2.2.2.2.2.1, ?_, ?_⟩
  · rw [hfld.1, hpage]
  · rw [hfld.2.1, hpage]
  · rw [hfld.2.2.1, hpage]
  · rw [hpage]
  · rw [hfld.2.2.2.2.2.2.2, hpage]
  · intro token2 htok2 hne2
    have hinv2 := resubscribe_subsTracked (ensureToken server p).2 c
      (channelTopic chatRoomId) hinv1
    rw [htopic] at hinv2
    have heq2 := connectAndSubscribe_of_connected server laterId _ c token2 hq_cc htok2 hne2
    rw [htopic] at heq2
    rw [heq2]
    dsimp only
    obtain ⟨ev2, hpage2, -, -⟩ := ensureToken_page server
      ((ensureToken server p).2.unsubscribeCurrent.subscribe c
        ("/sub/channel/" ++ toString chatRoomId))
    have hinv3 : (ensureToken server ((ensureToken server p).2.unsubscribeCurrent.subscribe c
        ("/sub/channel/" ++ toString chatRoomId))).2.subsTracked := by
      rw [hpage2]; exact hinv2
    have hact2 := resubscribe_activeSubs _ c (channelTopic laterId) hinv3
    have hfld2 := resubscribe_fields (ensureToken server
      ((ensureToken server p).2.unsubscribeCurrent.subscribe c
        ("/sub/channel/" ++ toString chatRoomId))).2 c (channelTopic laterId)
    rw [htopic] at hact2 hfld2
    refine ⟨?_, ?_, ?_⟩
    · rw [hact2, hpage2]
      dsimp only
      rw [hfld.2.2.2.2.2.1]
    · rw [hfld2.1, hpage2]
      dsimp only
      rw [hfld.1, hpage]
    · rw [hfld2.2.1, hpage2]
      dsimp only
      rw [hfld.2.1, hpage]
  · intro hstored
    have hp1 : (ensureToken server p).2 = p := by
      rw [ensureToken_of_truthy server p hstored]
    have hp2 : p.accessToken = some token := by
      rw [hp1] at hm; exact hm
    have hq : ((ensureToken server p).2.unsubscribeCurrent.subscribe c
        ("/sub/channel/" ++ toString chatRoomId)).accessToken = some token := by
      rw [hfld.2.2.2.1, hm]
    rw [ensureToken_of_truthy server _ (by rw [hq, ← hp2]; exact hstored), hq]

theorem reissueFinish_of_token (o : Except Thrown Response) (p : Page) (token : String)
    (h : (reissueFinish o p).1 = Except.ok (some token)) :
    token ≠ "" ∧ reissueFinish o p = (Except.ok (some token),
      { p with accessToken := some token, log := p.log ++ [Event.setItem token] }) := by
  have h1 := reissueFinish_fst o p
  have h2 := reissueFinish_snd o p
  rw [h] at h1
  rw [← h1] at h2
  dsimp only at h2
  refine ⟨exchangeResult_token o token h1.symm, ?_⟩
  rw [← h, ← h2]

/-- The function `connectAndSubscribe` is `ensureToken` followed by lines 225-271. -/
theorem connectAndSubscribe_eq_connectWithToken (server : Server) (chatRoomId : Nat) (p : Page) :
    connectAndSubscribe server chatRoomId p =
      match ensureToken server p with
      | (Except.error e, p1) => (Except.error e, p1)
      | (Except.ok token, p1) => connectWithToken chatRoomId token p1 := by
  unfold connectAndSubscribe connectWithToken
  rcases ensureToken server p with ⟨r, p1⟩
  rcases r with e | (_ | token) <;> rfl

/-- The function `connectAndSubscribe` is its first half, followed, when that one is
suspended on the exchange, by its second half on the answer of the server. -/
theorem connectAndSubscribe_eq_start_resume (server : Server) (chatRoomId : Nat) (p : Page) :
    (connectAndSubscribe server chatRoomId p).2 =
      match connectStart chatRoomId p with
      | (none, q) => q
      | (some req, q) => (connectResume chatRoomId (server (history p.log) req) q).2 := by
  rw [connectAndSubscribe_eq_connectWithToken]
  unfold connectStart
  by_cases ht : truthy p.accessToken = true
  · rw [ensureToken_of_truthy server p ht, if_pos ht]
  · have hens : ensureToken server p = reissueAccessTokenFromCookie server p := by
      unfold ensureToken; rw [if_neg ht]
    rw [hens, if_neg ht]
    cases hrc : refreshCookie p with
    | none => rw [reissue_of_none server p hrc, reissueStart_none p hrc]
    | some rt =>
      rw [reissue_of_some server p rt hrc, reissueStart_some p rt hrc]
      dsimp only
      unfold connectResume
      rcases reissueFinish (server (history p.log) (tokenRequest rt))
        ((p.emit Event.renew).emit (Event.fetch Site.exchange (tokenRequest rt))) with ⟨r, p1⟩
      rcases r with e | token <;> rfl

/-- A suspended call that resumes with a token on a page with a connected client takes
the branch of lines 231-235. -/
theorem connectResume_of_connected (chatRoomId : Nat) (o : Except Thrown Response) (p : Page)
    (c : Nat) (token : String) (hc : p.connectedClient = some c)
    (h : (reissueFinish o p).1 = Except.ok (some token)) :
    connectResume chatRoomId o p = (Except.ok (),
      ({ p with accessToken := some token, log := p.log ++ [Event.setItem token] } :
        Page).unsubscribeCurrent.subscribe c (channelTopic chatRoomId)) := by
  obtain ⟨hne, heq⟩ := reissueFinish_of_token o p token h
  unfold connectResume
  rw [heq]
  dsimp only
  unfold connectWithToken
  dsimp only
  rw [if_neg hne]
  have hcc : ({ p with accessToken := some token, log := p.log ++ [Event.setItem token] } :
      Page).connectedClient = some c := hc
  rw [hcc]

/-- What a suspended call leaves when it resumes with a token on a page with a connected
client and tracked subscriptions. -/
theorem connectResume_connected_spec (chatRoomId : Nat) (o : Except Thrown Response)
    (p : Page) (c : Nat) (token : String) (hinv : p.subsTracked)
    (hc : p.connectedClient = some c)
    (h : (reissueFinish o p).1 = Except.ok (some token)) :
    (connectResume chatRoomId o p).2.subsTracked ∧
    (connectResume chatRoomId o p).2.connectedClient = some c ∧
    (connectResume chatRoomId o p).2.activeSubs
      = [{ id := p.nextSubId, client := c, topic := "/sub/channel/" ++ toString chatRoomId }] ∧
    (connectResume chatRoomId o p).2.stompRef = p.stompRef ∧
    (connectResume chatRoomId o p).2.clients = p.clients ∧
    (connectResume chatRoomId o p).2.nextSubId = p.nextSubId + 1 := by
  have htopic : channelTopic chatRoomId = "/sub/channel/" ++ toString chatRoomId := by
    simp [channelTopic, SUB_PREFIX, String.append_assoc]
  have e1 := connectResume_of_connected chatRoomId o p c token hc h
  have hinv1 : ({ p with accessToken := some token, log := p.log ++ [Event.setItem token] } :
      Page).subsTracked := hinv
  have f1 := resubscribe_fields
    ({ p with accessToken := some token, log := p.log ++ [Event.setItem token] } : Page) c
    (channelTopic chatRoomId)
  have a1 := resubscribe_activeSubs _ c (channelTopic chatRoomId) hinv1
  have t1 := resubscribe_subsTracked _ c (channelTopic chatRoomId) hinv1
  rw [e1]
  dsimp only
  refine ⟨t1, ?_, ?_, f1.1, f1.2.1, f1.2.2.2.2.2.1⟩
  · unfold Page.connectedClient
    rw [f1.1, f1.2.1]
    exact hc
  · rw [a1, htopic]

/-- C5, as stated, fails: on a connected session whose access token has to be renewed,
a call for room 7 and, right after it, a call for room 9 are both suspended on their own
renewal exchange; when the exchange of the later call is answered first, the single
active subscription ends on the topic of room 7, the earlier call. -/
theorem connectAndSubscribe_later_call_overtaken :
    expiredSessionPage.connectedClient = some 0 ∧
    expiredSessionPage.accessToken = none ∧
    (connectStart 7 expiredSessionPage).1 = some (tokenRequest "r1") ∧
    (connectStart 9 (connectStart 7 expiredSessionPage).2).1 = some (tokenRequest "r1") ∧
    (connectResume 7 freshAnswer
        (connectResume 9 freshAnswer
          (connectStart 9 (connectStart 7 expiredSessionPage).2).2).2).2.activeSubs
      = [{ id := 2, client := 0, topic := "/sub/channel/7" }] := by
  refine ⟨by rfl, by rfl, by rfl, by rfl, by rfl⟩

/-- C5, amended: with a connected client and a credential available, `connectAndSubscribe`
opens no second connection (client reference, clients and connection status unchanged,
no client created or activated), unsubscribes the subscription held before it
subscribes anew, and leaves exactly one active subscription, on
`/sub/channel/{chatRoomId}`. With the access token stored, a second call right after
the first leaves exactly one active subscription, on the topic of the second
`chatRoomId`. When the token has to be renewed each call is suspended on its own
exchange, and of two suspended calls the one whose exchange is answered last leaves
its subscription as the only active one, whichever was called first. The active
subscriptions of the page are those `subRef` holds, as on every reachable page. -/
theorem connectAndSubscribe_replaces_subscription (server : Server) (p : Page) (c : Nat)
    (token : String) (chatRoomId laterId : Nat)
    (hinv : p.subsTracked) (hc : p.connectedClient = some c)
    (htok : (ensureToken server p).1 = Except.ok (some token)) (hne : token ≠ "") :
    (connectAndSubscribe server chatRoomId p).1 = Except.ok () ∧
    (connectAndSubscribe server chatRoomId p).2.stompRef = p.stompRef ∧
    (connectAndSubscribe server chatRoomId p).2.clients = p.clients ∧
    (connectAndSubscribe server chatRoomId p).2.wsStatus = p.wsStatus ∧
    (∃ ev, ev.countP isOpen = 0 ∧ (ensureToken server p).2.log = p.log ++ ev ∧
      (connectAndSubscribe server chatRoomId p).2.log
        = p.log ++ ev ++ p.subRef.toList.map Event.unsubscribe
          ++ [Event.subscribe { id := p.nextSubId, client := c,
                                topic := "/sub/channel/" ++ toString chatRoomId }]) ∧
    (connectAndSubscribe server chatRoomId p).2.activeSubs
      = [{ id := p.nextSubId, client := c, topic := "/sub/channel/" ++ toString chatRoomId }] ∧
    (connectAndSubscribe server chatRoomId p).2.subRef
      = some { id := p.nextSubId, client := c, topic := "/sub/channel/" ++ toString chatRoomId } ∧
    (truthy p.accessToken = true →
      (connectAndSubscribe server laterId (connectAndSubscribe server chatRoomId p).2).2.activeSubs
        = [{ id := p.nextSubId + 1, client := c,
             topic := "/sub/channel/" ++ toString laterId }] ∧
      (connectAndSubscribe server laterId (connectAndSubscribe server chatRoomId p).2).2.stompRef
        = p.stompRef ∧
      (connectAndSubscribe server laterId (connectAndSubscribe server chatRoomId p).2).2.clients
        = p.clients) ∧
    (∀ (first last : Except Thrown Response) (t1 t2 : String),
      (reissueFinish first p).1 = Except.ok (some t1) →
      (reissueFinish last p).1 = Except.ok (some t2) →
      (connectResume chatRoomId last (connectResume laterId first p).2).2.activeSubs
        = [{ id := p.nextSubId + 1, client := c,
             topic := "/sub/channel/" ++ toString chatRoomId }] ∧
      (connectResume chatRoomId last (connectResume laterId first p).2).2.stompRef
        = p.stompRef ∧
      (connectResume chatRoomId last (connectResume laterId first p).2).2.clients
        = p.clients) := by
  obtain ⟨g1, g2, g3, g4, g5, g6, g7, g8, g9⟩ :=
    connectAndSubscribe_connected_run server p c token chatRoomId laterId hinv hc htok hne
  refine ⟨g1, g2, g3, g4, g5, g6, g7, ?_, ?_⟩
  · intro hstored
    exact g8 token (g9 hstored) hne
  · intro first last t1 t2 h1 h2
    obtain ⟨r1, r2, -, r4, r5, r6⟩ := connectResume_connected_spec laterId first p c t1 hinv hc h1
    have h2q : (reissueFinish last (connectResume laterId first p).2).1
        = Except.ok (some t2) := by
      rw [reissueFinish_fst]; rw [reissueFinish_fst] at h2; exact h2
    obtain ⟨-, -, q3, q4, q5, -⟩ :=
      connectResume_connected_spec chatRoomId last _ c t2 r1 r2 h2q
    rw [r6] at q3
    exact ⟨q3, q4.trans r4, q5.trans r5⟩

theorem modifyClient_length (f : Client → Client) (c : Nat) (l : List Client) :
    (modifyClient f c l).length = l.length := by
  induction l generalizing c with
  | nil => cases c <;> rfl
  | cons x xs ih =>
    cases c with
    | zero => rfl
    | succ c => simp [modifyClient, ih]

theorem modifyClient_append_last (f : Client → Client) (l : List Client) (x : Client) :
    modifyClient f l.length (l ++ [x]) = l ++ [f x] := by
  induction l with
  | nil => rfl
  | cons y ys ih => simp [modifyClient, ih]

theorem modifyClient_mem (f : Client → Client) (c : Nat) (l : List Client) (x : Client)
    (h : x ∈ modifyClient f c l) : ∃ y ∈ l, x = y ∨ x = f y := by
  induction l generalizing c with
  | nil => cases c <;> simp [modifyClient] at h
  | cons y ys ih =>
    cases c with
    | zero =>
      simp only [modifyClient, List.mem_cons] at h
      rcases h with h | h
      · exact ⟨y, List.mem_cons_self _ _, Or.inr h⟩
      · exact ⟨x, List.mem_cons_of_mem _ h, Or.inl rfl⟩
    | succ c =>
      simp only [modifyClient, List.mem_cons] at h
      rcases h with h | h
      · exact ⟨y, List.mem_cons_self _ _, Or.inl h⟩
      · obtain ⟨z, hz, hx⟩ := ih c h
        exact ⟨z, List.mem_cons_of_mem _ hz, hx⟩

/-- Lines 237-271 leave the status CONNECTING and one more client, activated, whose
handshake header is the bearer token, referenced by `stompRef`. -/
theorem openConnection_spec (token : String) (chatRoomId : Nat) (p : Page) :
    (openConnection token chatRoomId p).wsStatus = WsStatus.CONNECTING ∧
    (openConnection token chatRoomId p).stompRef = some p.clients.length ∧
    (openConnection token chatRoomId p).clients = p.clients ++
      [{ authorization := "Bearer " ++ token, chatRoomId := chatRoomId,
         active := true, connected := false }] ∧
    (openConnection token chatRoomId p).log = p.log ++
      [Event.setWsStatus WsStatus.CONNECTING, Event.newClient p.clients.length,
       Event.activate p.clients.length] ∧
    (openConnection token chatRoomId p).subRef = p.subRef ∧
    (openConnection token chatRoomId p).activeSubs = p.activeSubs ∧
    (openConnection token chatRoomId p).accessToken = p.accessToken := by
  unfold openConnection
  simp [Page.activate, Page.setWsStatus, modifyClient_append_last]

/-- Without a connected client and with a resolved token, `connectAndSubscribe` takes
the branch of lines 237-271. -/
theorem connectAndSubscribe_of_disconnected (server : Server) (chatRoomId : Nat) (p : Page)
    (token : String) (hc : p.connectedClient = none)
    (htok : (ensureToken server p).1 = Except.ok (some token)) (hne : token ≠ "") :
    connectAndSubscribe server chatRoomId p =
      (Except.ok (), openConnection token chatRoomId (ensureToken server p).2) := by
  have hcc := ensureToken_connectedClient server p
  unfold connectAndSubscribe
  rcases he : ensureToken server p with ⟨r, p1⟩
  rw [he] at htok hcc
  dsimp only at htok hcc
  subst htok
  dsimp only
  rw [if_neg hne, hcc, hc]

theorem disconnectWs_fields (p : Page) :
    (disconnectWs p).wsStatus = WsStatus.DISCONNECTED ∧
    (disconnectWs p).stompRef = none ∧
    (disconnectWs p).subRef = none ∧
    (disconnectWs p).accessToken = p.accessToken ∧
    (disconnectWs p).timers = p.timers ∧
    (disconnectWs p).clients.length = p.clients.length ∧
    (disconnectWs p).log = p.log ++ p.subRef.toList.map Event.unsubscribe
      ++ p.stompRef.toList.map Event.deactivate ++ [Event.setWsStatus WsStatus.DISCONNECTED] := by
  unfold disconnectWs
  cases h1 : p.subRef <;> cases h2 : p.stompRef <;>
    simp [Page.setWsStatus, Page.unsubscribe, Page.deactivate, h1, h2, modifyClient_length]

/-- C6 fails on the code: when the STOMP error handler of a client has renewed the token
and scheduled its reconnect, `disconnectWs` sets the status to DISCONNECTED but leaves
the timer pending, and the timer firing afterwards reconnects: a new client is created
and activated with the renewed token, `stompRef` refers to it, and the status is
CONNECTING. -/
theorem stale_timer_reconnects (server : Server) (p : Page) (c : Nat) (cl : Client)
    (token : String) (hcl : p.clients.get? c = some cl)
    (hrenew : (reissueAccessTokenFromCookie server p).1 = Except.ok (some token)) :
    (onStompError server c p).2.timers = p.timers ++ [cl.chatRoomId] ∧
    (disconnectWs (onStompError server c p).2).wsStatus = WsStatus.DISCONNECTED ∧
    (disconnectWs (onStompError server c p).2).timers = p.timers ++ [cl.chatRoomId] ∧
    (fireTimer server (disconnectWs (onStompError server c p).2)).2.wsStatus
      = WsStatus.CONNECTING ∧
    (fireTimer server (disconnectWs (onStompError server c p).2)).2.stompRef
      = some p.clients.length ∧
    (fireTimer server (disconnectWs (onStompError server c p).2)).2.clients.length
      = p.clients.length + 1 ∧
    (fireTimer server (disconnectWs (onStompError server c p).2)).2.clients.getLast?
      = some { authorization := "Bearer " ++ token,
               chatRoomId := (p.timers ++ [cl.chatRoomId]).headD 0,
               active := true, connected := false } ∧
    (fireTimer server (disconnectWs (onStompError server c p).2)).2.log
      = (disconnectWs (onStompError server c p).2).log ++
        [Event.setWsStatus WsStatus.CONNECTING, Event.newClient p.clients.length,
         Event.activate p.clients.length] := by
  obtain ⟨ev, hpage, -, -, -, -, hm⟩ := reissue_page server p
  rw [hrenew] at hm
  dsimp only at hm
  obtain ⟨hne, hstored, -⟩ := hm
  -- the page after the error handler
  have herr : (onStompError server c p).2 =
      { (reissueAccessTokenFromCookie server p).2.deactivate c with
        timers := (reissueAccessTokenFromCookie server p).2.timers ++ [cl.chatRoomId],
        log := ((reissueAccessTokenFromCookie server p).2.deactivate c).log
          ++ [Event.setTimeout cl.chatRoomId] } := by
    unfold onStompError
    rw [hcl]
    dsimp only
    rcases hr : reissueAccessTokenFromCookie server p with ⟨r, p1⟩
    rw [hr] at hrenew
    dsimp only at hrenew
    subst hrenew
    rfl
  have htimers : (onStompError server c p).2.timers = p.timers ++ [cl.chatRoomId] := by
    rw [herr, hpage]
  have htoken : (onStompError server c p).2.accessToken = some token := by
    rw [herr]; exact hstored
  have hlen : (onStompError server c p).2.clients.length = p.clients.length := by
    rw [herr, hpage]; simp [Page.deactivate, modifyClient_length]
  obtain ⟨d1, d2, d3, d4, d5, d6, d7⟩ := disconnectWs_fields (onStompError server c p).2
  rw [htimers] at d5
  rw [htoken] at d4
  rw [hlen] at d6
  -- the timer fires
  obtain ⟨id, rest, hsplit⟩ : ∃ id rest, p.timers ++ [cl.chatRoomId] = id :: rest := by
    cases p.timers with
    | nil => exact ⟨_, _, rfl⟩
    | cons t ts => exact ⟨_, _, rfl⟩
  have hfire : fireTimer server (disconnectWs (onStompError server c p).2) =
      (Except.ok (), openConnection token id
        { disconnectWs (onStompError server c p).2 with timers := rest }) := by
    unfold fireTimer
    rw [d5, hsplit]
    dsimp only
    have hstored2 : ({ disconnectWs (onStompError server c p).2 with timers := rest } : Page).accessToken
        = some token := d4
    have htruthy : truthy ({ disconnectWs (onStompError server c p).2 with timers := rest } : Page).accessToken
        = true := by
      rw [hstored2]; simpa [truthy] using hne
    have hens := ensureToken_of_truthy server _ htruthy
    have hcc : ({ disconnectWs (onStompError server c p).2 with timers := rest } : Page).connectedClient
        = none := by
      unfold Page.connectedClient
      dsimp only
      rw [d2]
    rw [connectAndSubscribe_of_disconnected server id _ token hcc (by rw [hens, hstored2]) hne, hens]
  obtain ⟨o1, o2, o3, o4, -, -, -⟩ := openConnection_spec token id
    { disconnectWs (onStompError server c p).2 with timers := rest }
  dsimp only at o2 o3 o4
  rw [d6] at o2 o4
  refine ⟨htimers, d1, d5, ?_, ?_, ?_, ?_, ?_⟩
  · rw [hfire]; exact o1
  · rw [hfire]; exact o2
  · rw [hfire]; dsimp only; rw [o3]; simp [d6]
  · rw [hfire]; dsimp only; rw [o3, hsplit]; simp
  · rw [hfire]; exact o4

/-- C7, as stated, fails: on a reachable page whose session is CONNECTED while the stored
access token has been cleared by a failed call and renewal returns null,
`connectAndSubscribe` opens nothing, and the status it leaves is CONNECTED, not
DISCONNECTED. -/
theorem connectAndSubscribe_keeps_connected_status :
    orphanedSessionPage.accessToken = none ∧
    (reissueAccessTokenFromCookie revoked orphanedSessionPage).1 = Except.ok none ∧
    orphanedSessionPage.wsStatus = WsStatus.CONNECTED ∧
    (connectAndSubscribe revoked 42 orphanedSessionPage).2.wsStatus = WsStatus.CONNECTED ∧
    (connectAndSubscribe revoked 42 orphanedSessionPage).2.wsStatus ≠ WsStatus.DISCONNECTED := by
  refine ⟨by rfl, by rfl, by rfl, by rfl, ?_⟩
  have h : (connectAndSubscribe revoked 42 orphanedSessionPage).2.wsStatus
      = WsStatus.CONNECTED := by rfl
  rw [h]
  decide

/-- The ways `connectAndSubscribe` ends: the renewal rejected; no token, the alert of
line 226; a connected client, the subscription replaced; otherwise a connection opened
with the resolved token. -/
theorem connectAndSubscribe_cases (server : Server) (chatRoomId : Nat) (p : Page) :
    ((∀ token, (ensureToken server p).1 ≠ Except.ok (some token)) ∧
      ((connectAndSubscribe server chatRoomId p).2 = (ensureToken server p).2 ∨
       (connectAndSubscribe server chatRoomId p).2
         = (ensureToken server p).2.emit (Event.alert noTokenAlert))) ∨
    ((ensureToken server p).1 = Except.ok (some "") ∧
      (connectAndSubscribe server chatRoomId p).2
         = (ensureToken server p).2.emit (Event.alert noTokenAlert)) ∨
    (∃ c, (connectAndSubscribe server chatRoomId p).2
        = (ensureToken server p).2.unsubscribeCurrent.subscribe c (channelTopic chatRoomId)) ∨
    (∃ token, token ≠ "" ∧ (ensureToken server p).1 = Except.ok (some token) ∧
      (connectAndSubscribe server chatRoomId p).2
        = openConnection token chatRoomId (ensureToken server p).2) := by
  unfold connectAndSubscribe
  rcases he : ensureToken server p with ⟨r, p1⟩
  rcases r with e | (_ | token)
  · exact Or.inl ⟨by simp, Or.inl rfl⟩
  · exact Or.inl ⟨by simp, Or.inr rfl⟩
  · dsimp only
    by_cases hne : token = ""
    · rw [if_pos hne]
      subst hne
      exact Or.inr (Or.inl ⟨rfl, rfl⟩)
    · rw [if_neg hne]
      cases hc : p1.connectedClient with
      | some c => exact Or.inr (Or.inr (Or.inl ⟨c, rfl⟩))
      | none => exact Or.inr (Or.inr (Or.inr ⟨token, hne, rfl, rfl⟩))

theorem ensureToken_sameSession (server : Server) (p : Page) :
    p.sameSession (ensureToken server p).2 := by
  obtain ⟨ev, hpage, -⟩ := ensureToken_page server p
  rw [hpage]
  exact ⟨rfl, rfl, rfl, rfl, rfl, rfl, rfl⟩

/-- The token `ensureToken` resolves is never the empty string. -/
theorem ensureToken_token (server : Server) (p : Page) (token : String)
    (h : (ensureToken server p).1 = Except.ok (some token)) : token ≠ "" := by
  unfold ensureToken at h
  by_cases ht : truthy p.accessToken = true
  · rw [if_pos ht] at h
    dsimp only at h
    simp only [Except.ok.injEq] at h
    rw [h] at ht
    simpa [truthy] using ht
  · rw [if_neg ht] at h
    obtain ⟨ev, -, -, -, -, -, hm⟩ := reissue_page server p
    rw [h] at hm
    exact hm.1

/-- C7, amended: with no access token stored and a renewal that returns null,
`connectAndSubscribe` opens no connection, creates no subscription and leaves the
connection status as it was (DISCONNECTED when it was DISCONNECTED); whenever it
creates a client, the handshake header of that client is `Bearer` followed by the
non-empty token it resolved (the stored one, or else the renewed one), and the status
is CONNECTING; it never sets the status to CONNECTED itself. -/
theorem connectAndSubscribe_credential (server : Server) (chatRoomId : Nat) (p : Page) :
    (truthy p.accessToken = false →
      (reissueAccessTokenFromCookie server p).1 = Except.ok none →
      (connectAndSubscribe server chatRoomId p).1 = Except.ok () ∧
      p.sameSession (connectAndSubscribe server chatRoomId p).2 ∧
      (p.wsStatus = WsStatus.DISCONNECTED →
        (connectAndSubscribe server chatRoomId p).2.wsStatus = WsStatus.DISCONNECTED) ∧
      (connectAndSubscribe server chatRoomId p).2.log
        = (reissueAccessTokenFromCookie server p).2.log ++ [Event.alert noTokenAlert]) ∧
    ((connectAndSubscribe server chatRoomId p).2.clients ≠ p.clients →
      ∃ token, token ≠ "" ∧ (ensureToken server p).1 = Except.ok (some token) ∧
        (truthy p.accessToken = true → p.accessToken = some token) ∧
        (truthy p.accessToken = false →
          (reissueAccessTokenFromCookie server p).1 = Except.ok (some token)) ∧
        (connectAndSubscribe server chatRoomId p).2.clients = p.clients ++
          [{ authorization := "Bearer " ++ token, chatRoomId := chatRoomId,
             active := true, connected := false }] ∧
        (connectAndSubscribe server chatRoomId p).2.stompRef = some p.clients.length ∧
        (connectAndSubscribe server chatRoomId p).2.wsStatus = WsStatus.CONNECTING) ∧
    ((connectAndSubscribe server chatRoomId p).2.wsStatus = p.wsStatus ∨
      (connectAndSubscribe server chatRoomId p).2.wsStatus = WsStatus.CONNECTING) := by
  obtain ⟨s1, s2, s3, s4, s5, s6, s7⟩ := ensureToken_sameSession server p
  refine ⟨?_, ?_, ?_⟩
  · intro hnot hnull
    have hens : ensureToken server p = reissueAccessTokenFromCookie server p := by
      unfold ensureToken; rw [if_neg (by simp [hnot])]
    have hq : connectAndSubscribe server chatRoomId p =
        (Except.ok (), (reissueAccessTokenFromCookie server p).2.emit (Event.alert noTokenAlert)) := by
      unfold connectAndSubscribe
      rw [hens]
      rcases hr : reissueAccessTokenFromCookie server p with ⟨r, p1⟩
      rw [hr] at hnull
      dsimp only at hnull
      subst hnull
      rfl
    rw [hens] at s1 s2 s3 s4 s5 s6 s7
    rw [hq]
    refine ⟨rfl, ⟨s1, s2, s3, s4, s5, s6, s7⟩, ?_, rfl⟩
    intro hd
    exact s4.trans hd
  · intro hneq
    rcases connectAndSubscribe_cases server chatRoomId p with h | h | h | h
    · rcases h.2 with h2 | h2
      · rw [h2] at hneq; exact absurd s3 hneq
      · rw [h2] at hneq; exact absurd s3 hneq
    · rw [h.2] at hneq; exact absurd s3 hneq
    · obtain ⟨c, hc⟩ := h
      rw [hc, (resubscribe_fields _ c _).2.1] at hneq
      exact absurd s3 hneq
    · obtain ⟨token, hne, htok, hq⟩ := h
      obtain ⟨o1, o2, o3, -⟩ := openConnection_spec token chatRoomId (ensureToken server p).2
      rw [s3] at o2 o3
      refine ⟨token, hne, htok, ?_, ?_, ?_, ?_, ?_⟩
      · intro ht
        rw [ensureToken_of_truthy server p ht] at htok
        simpa using htok
      · intro ht
        have hens : ensureToken server p = reissueAccessTokenFromCookie server p := by
          unfold ensureToken; rw [if_neg (by simp [ht])]
        rw [← hens]; exact htok
      · rw [hq]; exact o3
      · rw [hq]; exact o2
      · rw [hq]; exact o1
  · rcases connectAndSubscribe_cases server chatRoomId p with h | h | h | h
    · rcases h.2 with h2 | h2
      · left; rw [h2]; exact s4
      · left; rw [h2]; exact s4
    · left; rw [h.2]; exact s4
    · obtain ⟨c, hc⟩ := h
      left; rw [hc, (resubscribe_fields _ c _).2.2.1]; exact s4
    · obtain ⟨token, hne, htok, hq⟩ := h
      right; rw [hq]; exact (openConnection_spec token chatRoomId _).1

/-- Witness: on a page with neither token nor
cookie nothing is opened, and on `stalePage` the client carries `Bearer stale`. -/
theorem connectAndSubscribe_credential_witness :
    (connectAndSubscribe offline 42 anonymousPage).2.wsStatus = WsStatus.DISCONNECTED ∧
    (∃ token, token ≠ "" ∧
      (connectAndSubscribe offline 42 stalePage).2.clients = stalePage.clients ++
        [{ authorization := "Bearer " ++ token, chatRoomId := 42,
           active := true, connected := false }]) :=
  ⟨((connectAndSubscribe_credential offline 42 anonymousPage).1 (by rfl) (by rfl)).2.2.1 (by rfl),
   by
    obtain ⟨token, hne, -, -, -, hcl, -⟩ :=
      (connectAndSubscribe_credential offline 42 stalePage).2.1 (by
        have h : (connectAndSubscribe offline 42 stalePage).2.clients.length = 1 := by rfl
        intro heq
        rw [heq] at h
        exact absurd h (by decide))
    exact ⟨token, hne, hcl⟩⟩

/-! ## Invariants of the reachable pages -/

theorem wellFormed_of_fields (p q : Page) (h1 : q.subRef = p.subRef)
    (h2 : q.activeSubs = p.activeSubs) (h3 : q.clients = p.clients)
    (h4 : q.wsStatus = p.wsStatus) (h : p.wellFormed) : q.wellFormed := by
  obtain ⟨a, b, c⟩ := h
  refine ⟨?_, ?_, ?_⟩
  · intro s hs; rw [h1]; rw [h2] at hs; exact a s hs
  · intro cl hcl; rw [h3] at hcl; exact b cl hcl
  · intro hst; rw [h3]; rw [h4] at hst; exact c hst

theorem wellFormed_of_sameSession (p q : Page) (hs : p.sameSession q) (h : p.wellFormed) :
    q.wellFormed :=
  wellFormed_of_fields p q hs.1 hs.2.1 hs.2.2.1 hs.2.2.2.1 h

theorem reissue_sameSession (server : Server) (p : Page) :
    p.sameSession (reissueAccessTokenFromCookie server p).2 := by
  obtain ⟨ev, hpage, -⟩ := reissue_page server p
  rw [hpage]
  exact ⟨rfl, rfl, rfl, rfl, rfl, rfl, rfl⟩

theorem sameSession_trans (p q r : Page) (h1 : p.sameSession q) (h2 : q.sameSession r) :
    p.sameSession r := by
  obtain ⟨a1, a2, a3, a4, a5, a6, a7⟩ := h1
  obtain ⟨b1, b2, b3, b4, b5, b6, b7⟩ := h2
  exact ⟨b1.trans a1, b2.trans a2, b3.trans a3, b4.trans a4, b5.trans a5, b6.trans a6,
    b7.trans a7⟩

/-- The function `httpRequest` leaves the STOMP session alone. -/
theorem httpRequest_sameSession (server : Server) (fuel : Nat) (p : Page)
    (method url : String) (body : Option String) :
    p.sameSession (httpRequest server fuel p method url body).2 := by
  induction fuel generalizing p with
  | zero => exact ⟨rfl, rfl, rfl, rfl, rfl, rfl, rfl⟩
  | succ fuel ih =>
    have hemit : p.sameSession (p.emit (Event.fetch Site.call (callRequest p method url body))) :=
      ⟨rfl, rfl, rfl, rfl, rfl, rfl, rfl⟩
    have hre := reissue_sameSession server
      (p.emit (Event.fetch Site.call (callRequest p method url body)))
    unfold httpRequest
    dsimp only
    rcases server (history p.log) (callRequest p method url body) with e | res
    · exact hemit
    · dsimp only
      by_cases hok : res.ok = true
      · rw [if_pos hok]; exact hemit
      · rw [if_neg hok]
        by_cases h401 : res.status = 401
        · rw [if_pos h401]
          rcases hr : reissueAccessTokenFromCookie server
              (p.emit (Event.fetch Site.call (callRequest p method url body))) with ⟨r, p2⟩
          rw [hr] at hre
          dsimp only at hre
          rcases r with e | (_ | token)
          · exact sameSession_trans _ _ _ hemit hre
          · exact sameSession_trans _ _ _ hemit hre
          · exact sameSession_trans _ _ _ (sameSession_trans _ _ _ hemit hre) (ih p2)
        · rw [if_neg h401]; exact hemit

theorem credentialed_modifyClient (f : Client → Client) (c : Nat) (l : List Client)
    (hf : ∀ cl, (f cl).authorization = cl.authorization)
    (h : ∀ cl ∈ l, ∃ token, token ≠ "" ∧ cl.authorization = "Bearer " ++ token) :
    ∀ cl ∈ modifyClient f c l, ∃ token, token ≠ "" ∧ cl.authorization = "Bearer " ++ token := by
  intro cl hcl
  obtain ⟨y, hy, hxy⟩ := modifyClient_mem f c l cl hcl
  rcases hxy with hxy | hxy
  · rw [hxy]; exact h y hy
  · rw [hxy, hf]; exact h y hy

theorem modifyClient_ne_nil (f : Client → Client) (c : Nat) (l : List Client) (h : l ≠ []) :
    modifyClient f c l ≠ [] := by
  intro hnil
  have := modifyClient_length f c l
  rw [hnil] at this
  exact h (List.length_eq_zero.mp this.symm)

theorem resubscribe_wellFormed (p : Page) (c : Nat) (topic : String) (h : p.wellFormed) :
    (p.unsubscribeCurrent.subscribe c topic).wellFormed := by
  obtain ⟨f1, f2, f3, -⟩ := resubscribe_fields p c topic
  refine ⟨resubscribe_subsTracked p c topic h.1, ?_, ?_⟩
  · intro cl hcl; rw [f2] at hcl; exact h.2.1 cl hcl
  · intro hst; rw [f2]; rw [f3] at hst; exact h.2.2 hst

theorem openConnection_wellFormed (token : String) (chatRoomId : Nat) (p : Page)
    (hne : token ≠ "") (h : p.wellFormed) : (openConnection token chatRoomId p).wellFormed := by
  obtain ⟨o1, o2, o3, o4, o5, o6, o7⟩ := openConnection_spec token chatRoomId p
  refine ⟨?_, ?_, ?_⟩
  · intro s hs; rw [o5]; rw [o6] at hs; exact h.1 s hs
  · intro cl hcl
    rw [o3, List.mem_append, List.mem_singleton] at hcl
    rcases hcl with hcl | hcl
    · exact h.2.1 cl hcl
    · exact ⟨token, hne, by rw [hcl]⟩
  · intro _; rw [o3]; simp

theorem connectAndSubscribe_wellFormed (server : Server) (chatRoomId : Nat) (p : Page)
    (h : p.wellFormed) : (connectAndSubscribe server chatRoomId p).2.wellFormed := by
  have he := wellFormed_of_sameSession p _ (ensureToken_sameSession server p) h
  have halert : ((ensureToken server p).2.emit (Event.alert noTokenAlert)).wellFormed :=
    wellFormed_of_fields _ _ rfl rfl rfl rfl he
  rcases connectAndSubscribe_cases server chatRoomId p with hc | hc | hc | hc
  · rcases hc.2 with h2 | h2
    · rw [h2]; exact he
    · rw [h2]; exact halert
  · rw [hc.2]; exact halert
  · obtain ⟨c, hq⟩ := hc
    rw [hq]; exact resubscribe_wellFormed _ c _ he
  · obtain ⟨token, hne, -, hq⟩ := hc
    rw [hq]; exact openConnection_wellFormed token chatRoomId _ hne he

theorem disconnectWs_wellFormed (p : Page) (h : p.wellFormed) : (disconnectWs p).wellFormed := by
  obtain ⟨a, b, c⟩ := h
  have hact : (disconnectWs p).activeSubs = [] := by
    unfold disconnectWs
    unfold Page.subsTracked at a
    cases hs : p.subRef with
    | none =>
      have : p.activeSubs = [] := by
        rcases hl : p.activeSubs with _ | ⟨s, l⟩
        · rfl
        · have := a s (by rw [hl]; exact List.mem_cons_self _ _)
          rw [hs] at this
          cases this
      cases h2 : p.stompRef <;> simp [Page.setWsStatus, Page.deactivate, this, h2]
    | some sub =>
      have : p.activeSubs.filter (fun s => s != sub) = [] := by
        rw [List.filter_eq_nil_iff]
        intro s hmem
        have := a s hmem
        rw [hs] at this
        simp only [Option.some.injEq] at this
        simp [this]
      cases h2 : p.stompRef <;> simp [Page.setWsStatus, Page.deactivate, Page.unsubscribe, this, h2]
  have hcl : (disconnectWs p).clients = p.clients ∨
      ∃ c, (disconnectWs p).clients
        = modifyClient (fun cl => { cl with active := false }) c p.clients := by
    unfold disconnectWs
    cases h1 : p.subRef with
    | none =>
      cases h2 : p.stompRef with
      | none => left; simp [Page.setWsStatus, h2]
      | some c => right; exact ⟨c, by simp [Page.setWsStatus, Page.deactivate, h2]⟩
    | some sub =>
      cases h2 : p.stompRef with
      | none => left; simp [Page.setWsStatus, Page.unsubscribe, h2]
      | some c =>
        right; exact ⟨c, by simp [Page.setWsStatus, Page.deactivate, Page.unsubscribe, h2]⟩
  refine ⟨?_, ?_, ?_⟩
  · intro s hs; rw [hact] at hs; cases hs
  · rcases hcl with hcl | ⟨c, hcl⟩
    · intro cl hmem; rw [hcl] at hmem; exact b cl hmem
    · intro cl hmem; rw [hcl] at hmem
      exact credentialed_modifyClient (fun cl => { cl with active := false }) c p.clients
        (fun _ => rfl) b cl hmem
  · intro hst
    rw [(disconnectWs_fields p).1] at hst
    cases hst

theorem onConnect_wellFormed (c : Nat) (p : Page) (h : p.wellFormed) :
    (onConnect c p).wellFormed := by
  unfold onConnect
  cases hcl : p.clients.get? c with
  | none => exact h
  | some cl =>
    dsimp only
    apply resubscribe_wellFormed
    obtain ⟨a, b, _⟩ := h
    have hne : p.clients ≠ [] := by
      intro hnil; rw [hnil] at hcl; simp at hcl
    exact ⟨a, credentialed_modifyClient _ c _ (fun _ => rfl) b,
      fun _ => modifyClient_ne_nil _ c _ hne⟩

theorem onStompError_wellFormed (server : Server) (c : Nat) (p : Page) (h : p.wellFormed) :
    (onStompError server c p).2.wellFormed := by
  have hre := wellFormed_of_sameSession p _ (reissue_sameSession server p) h
  unfold onStompError
  cases p.clients.get? c with
  | none => exact h
  | some cl =>
    dsimp only
    rcases hr : reissueAccessTokenFromCookie server p with ⟨r, p1⟩
    rw [hr] at hre
    dsimp only at hre
    obtain ⟨a, b, d⟩ := hre
    rcases r with e | (_ | token)
    · exact ⟨a, b, d⟩
    · exact ⟨a, b, fun hst => by cases hst⟩
    · exact ⟨a, credentialed_modifyClient _ c _ (fun _ => rfl) b,
        fun hst => modifyClient_ne_nil _ c _ (d hst)⟩

theorem onWebSocketClose_wellFormed (c : Nat) (p : Page) (h : p.wellFormed) :
    (onWebSocketClose c p).wellFormed := by
  obtain ⟨a, b, _⟩ := h
  exact ⟨a, credentialed_modifyClient _ c _ (fun _ => rfl) b, fun hst => by cases hst⟩

theorem handleLogoutFinish_eq (outcome : Except Thrown Response) (p : Page) :
    handleLogoutFinish outcome p = clearClientSide p := by
  cases outcome <;> rfl

theorem handleLogoutStart_wellFormed (p : Page) (h : p.wellFormed) :
    (handleLogoutStart p).wellFormed :=
  wellFormed_of_fields _ _ rfl rfl rfl rfl (disconnectWs_wellFormed p h)

theorem handleLogoutFinish_wellFormed (outcome : Except Thrown Response) (p : Page)
    (h : p.wellFormed) : (handleLogoutFinish outcome p).wellFormed := by
  rw [handleLogoutFinish_eq]
  exact wellFormed_of_fields _ _ rfl rfl rfl rfl h

theorem handleLogout_wellFormed (server : Server) (p : Page) (h : p.wellFormed) :
    (handleLogout server p).wellFormed :=
  handleLogoutFinish_wellFormed _ _ (handleLogoutStart_wellFormed p h)

theorem connectWithToken_wellFormed (chatRoomId : Nat) (token : Option String) (p : Page)
    (h : p.wellFormed) : (connectWithToken chatRoomId token p).2.wellFormed := by
  unfold connectWithToken
  cases token with
  | none => exact wellFormed_of_fields _ _ rfl rfl rfl rfl h
  | some token =>
    dsimp only
    by_cases hne : token = ""
    · rw [if_pos hne]; exact wellFormed_of_fields _ _ rfl rfl rfl rfl h
    · rw [if_neg hne]
      cases p.connectedClient with
      | some c => exact resubscribe_wellFormed p c _ h
      | none => exact openConnection_wellFormed token chatRoomId p hne h

theorem reissueStart_wellFormed (p : Page) (h : p.wellFormed) :
    (reissueStart p).2.wellFormed := by
  cases hrc : refreshCookie p with
  | none => rw [reissueStart_none p hrc]; exact wellFormed_of_fields _ _ rfl rfl rfl rfl h
  | some rt => rw [reissueStart_some p rt hrc]; exact wellFormed_of_fields _ _ rfl rfl rfl rfl h

theorem reissueFinish_wellFormed (o : Except Thrown Response) (p : Page) (h : p.wellFormed) :
    (reissueFinish o p).2.wellFormed := by
  rw [reissueFinish_snd]
  rcases exchangeResult o with e | (_ | token)
  · exact h
  · exact h
  · exact wellFormed_of_fields _ _ rfl rfl rfl rfl h

theorem connectStart_wellFormed (chatRoomId : Nat) (p : Page) (h : p.wellFormed) :
    (connectStart chatRoomId p).2.wellFormed := by
  unfold connectStart
  by_cases ht : truthy p.accessToken = true
  · rw [if_pos ht]; exact connectWithToken_wellFormed chatRoomId _ p h
  · rw [if_neg ht]
    have hs := reissueStart_wellFormed p h
    rcases hr : reissueStart p with ⟨r, p1⟩
    rw [hr] at hs
    cases r with
    | none => exact connectWithToken_wellFormed chatRoomId none p1 hs
    | some req => exact hs

theorem connectResume_wellFormed (chatRoomId : Nat) (o : Except Thrown Response) (p : Page)
    (h : p.wellFormed) : (connectResume chatRoomId o p).2.wellFormed := by
  unfold connectResume
  have hf := reissueFinish_wellFormed o p h
  rcases hr : reissueFinish o p with ⟨r, p1⟩
  rw [hr] at hf
  cases r with
  | error e => exact hf
  | ok token => exact connectWithToken_wellFormed chatRoomId token p1 hf

theorem sendMessage_wellFormed (p : Page) (h : p.wellFormed) : (sendMessage p).wellFormed := by
  unfold sendMessage
  cases p.room with
  | none => exact wellFormed_of_fields _ _ rfl rfl rfl rfl h
  | some room =>
    dsimp only
    split
    · exact wellFormed_of_fields _ _ rfl rfl rfl rfl h
    · split
      · exact h
      · cases p.connectedClient with
        | none => exact wellFormed_of_fields _ _ rfl rfl rfl rfl h
        | some c => exact wellFormed_of_fields _ _ rfl rfl rfl rfl h

theorem onMessage_wellFormed (parse : String → Option Json) (body : String) (p : Page)
    (h : p.wellFormed) : (onMessage parse body p).wellFormed := by
  unfold onMessage
  cases parse body <;> exact wellFormed_of_fields _ _ rfl rfl rfl rfl h

theorem step_wellFormed (server : Server) (parse : String → Option Json) (a : Action)
    (p : Page) (h : p.wellFormed) : (step server parse a p).wellFormed := by
  cases a with
  | connectAndSubscribe chatRoomId => exact connectAndSubscribe_wellFormed server chatRoomId p h
  | onConnect c => exact onConnect_wellFormed c p h
  | onStompError c => exact onStompError_wellFormed server c p h
  | onWebSocketClose c => exact onWebSocketClose_wellFormed c p h
  | fireTimer =>
    show (fireTimer server p).2.wellFormed
    unfold fireTimer
    cases ht : p.timers with
    | nil => exact h
    | cons id rest =>
      exact connectAndSubscribe_wellFormed server id _
        (wellFormed_of_fields p _ rfl rfl rfl rfl h)
  | disconnectWs => exact disconnectWs_wellFormed p h
  | handleLogout => exact handleLogout_wellFormed server p h
  | handleLogoutStart => exact handleLogoutStart_wellFormed p h
  | handleLogoutFinish outcome => exact handleLogoutFinish_wellFormed outcome p h
  | connectStart chatRoomId => exact connectStart_wellFormed chatRoomId p h
  | connectResume chatRoomId outcome => exact connectResume_wellFormed chatRoomId outcome p h
  | sendMessage => exact sendMessage_wellFormed p h
  | onMessage body => exact onMessage_wellFormed parse body p h
  | httpRequest fuel method url body =>
    exact wellFormed_of_sameSession p _ (httpRequest_sameSession server fuel p method url body) h
  | reissue => exact wellFormed_of_sameSession p _ (reissue_sameSession server p) h
  | setMessageText text => exact wellFormed_of_fields p _ rfl rfl rfl rfl h
  | setRoom room messages => exact wellFormed_of_fields p _ rfl rfl rfl rfl h
  | setMe me => exact wellFormed_of_fields p _ rfl rfl rfl rfl h

/-- Every reachable page is well formed: its active subscriptions are the one `subRef`
holds, each of its clients was configured with a non-empty bearer token, and its
status is CONNECTED only when such a client exists (I3). -/
theorem reachable_invariants (server : Server) (parse : String → Option Json) (p : Page)
    (h : Reachable server parse p) :
    p.subsTracked ∧ p.clientsCredentialed ∧
    (p.wsStatus = WsStatus.CONNECTED →
      ∃ cl ∈ p.clients, ∃ token, token ≠ "" ∧ cl.authorization = "Bearer " ++ token) := by
  obtain ⟨accessToken, cookies, actions, rfl⟩ := h
  have hwf : ∀ (acts : List Action) (q : Page), q.wellFormed →
      (run server parse acts q).wellFormed := by
    intro acts
    induction acts with
    | nil => intro q hq; exact hq
    | cons a as ih =>
      intro q hq
      exact ih _ (step_wellFormed server parse a q hq)
  have h0 : (Page.initial accessToken cookies).wellFormed :=
    ⟨fun s hs => (by cases hs), fun cl hcl => (by cases hcl), fun hst => (by cases hst)⟩
  obtain ⟨a, b, c⟩ := hwf actions _ h0
  refine ⟨a, b, fun hst => ?_⟩
  have hne := c hst
  rcases hl : (run server parse actions (Page.initial accessToken cookies)).clients with _ | ⟨cl, cls⟩
  · exact absurd hl hne
  · exact ⟨cl, List.mem_cons_self _ _, b cl (by rw [hl]; exact List.mem_cons_self _ _)⟩

/-! ## Logout, sending, receiving -/

/-- Uninterrupted logout: when nothing runs while the revocation is awaited,
`handleLogout` leaves the status DISCONNECTED, the identity null, the conversation null,
the message list empty and the stored access token absent, whatever the page before and
whatever the server answers; its effects are, in order, the unsubscription (if
subscribed), the deactivation (if a client is held), the status DISCONNECTED, the
revocation call, and only then the removal of the access token. -/
theorem handleLogout_uninterrupted (server : Server) (p : Page) :
    (handleLogout server p).wsStatus = WsStatus.DISCONNECTED ∧
    (handleLogout server p).me = none ∧
    (handleLogout server p).room = none ∧
    (handleLogout server p).messages = [] ∧
    (handleLogout server p).accessToken = none ∧
    (handleLogout server p).stompRef = none ∧
    (handleLogout server p).subRef = none ∧
    (handleLogout server p).log =
      p.log ++ p.subRef.toList.map Event.unsubscribe ++ p.stompRef.toList.map Event.deactivate
        ++ [Event.setWsStatus WsStatus.DISCONNECTED, Event.fetch Site.revoke revokeRequest,
            Event.removeItem, Event.deleteCookie "refresh_token"] := by
  unfold handleLogout
  rw [handleLogoutFinish_eq]
  unfold handleLogoutStart disconnectWs
  cases h1 : p.subRef <;> cases h2 : p.stompRef <;>
    simp [clearClientSide, deleteCookie, Page.emit, Page.setWsStatus, Page.unsubscribe,
      Page.deactivate, h1, h2]

/-- C8 fails on the code: when a reconnect timer of line 258 is pending and the access
token is stored, `handleLogout` sets the status DISCONNECTED and then awaits the
revocation with the token still stored; the timer firing during that `await` calls
`connectAndSubscribe`, which creates and activates a new client with that token, and
the rest of `handleLogout` clears the token and the identity but leaves the status
CONNECTING and the new client in `stompRef`. -/
theorem handleLogout_interrupted_by_timer (server : Server)
    (outcome : Except Thrown Response) (p : Page) (token : String) (chatRoomId : Nat)
    (rest : List Nat) (htok : p.accessToken = some token) (hne : token ≠ "")
    (htimer : p.timers = chatRoomId :: rest) :
    (handleLogoutStart p).wsStatus = WsStatus.DISCONNECTED ∧
    (handleLogoutStart p).accessToken = some token ∧
    (fireTimer server (handleLogoutStart p)).2.wsStatus = WsStatus.CONNECTING ∧
    (handleLogoutFinish outcome (fireTimer server (handleLogoutStart p)).2).wsStatus
      = WsStatus.CONNECTING ∧
    (handleLogoutFinish outcome (fireTimer server (handleLogoutStart p)).2).accessToken
      = none ∧
    (handleLogoutFinish outcome (fireTimer server (handleLogoutStart p)).2).me = none ∧
    (handleLogoutFinish outcome (fireTimer server (handleLogoutStart p)).2).stompRef
      = some p.clients.length ∧
    (handleLogoutFinish outcome (fireTimer server (handleLogoutStart p)).2).clients.getLast?
      = some { authorization := "Bearer " ++ token, chatRoomId := chatRoomId,
               active := true, connected := false } := by
  obtain ⟨d1, d2, d3, d4, d5, d6, d7⟩ := disconnectWs_fields p
  have s1 : (handleLogoutStart p).wsStatus = WsStatus.DISCONNECTED := d1
  have s2 : (handleLogoutStart p).stompRef = none := d2
  have s4 : (handleLogoutStart p).accessToken = some token := d4.trans htok
  have s5 : (handleLogoutStart p).timers = chatRoomId :: rest := d5.trans htimer
  have s6 : (handleLogoutStart p).clients.length = p.clients.length := d6
  have hfire : fireTimer server (handleLogoutStart p) =
      (Except.ok (), openConnection token chatRoomId
        { handleLogoutStart p with timers := rest }) := by
    unfold fireTimer
    rw [s5]
    dsimp only
    have hstored : ({ handleLogoutStart p with timers := rest } : Page).accessToken
        = some token := s4
    have htruthy : truthy ({ handleLogoutStart p with timers := rest } : Page).accessToken
        = true := by
      rw [hstored]; simpa [truthy] using hne
    have hens := ensureToken_of_truthy server _ htruthy
    have hcc : ({ handleLogoutStart p with timers := rest } : Page).connectedClient = none := by
      unfold Page.connectedClient
      dsimp only
      rw [s2]
    rw [connectAndSubscribe_of_disconnected server chatRoomId _ token hcc
      (by rw [hens, hstored]) hne, hens]
  obtain ⟨o1, o2, o3, -⟩ := openConnection_spec token chatRoomId
    { handleLogoutStart p with timers := rest }
  dsimp only at o2 o3
  rw [s6] at o2
  rw [hfire, handleLogoutFinish_eq]
  refine ⟨s1, s4, o1, ?_, rfl, rfl, ?_, ?_⟩
  · exact o1
  · exact o2
  · show (openConnection token chatRoomId
      { handleLogoutStart p with timers := rest }).clients.getLast? = _
    rw [o3]; simp

/-- Witness: the session of room 42 got a STOMP error, the token was renewed and the
reconnect scheduled; the user logs out and the timer fires while the revocation is
awaited. -/
theorem handleLogout_interrupted_by_timer_witness :
    (handleLogoutFinish freshAnswer
        (fireTimer alwaysExpired (handleLogoutStart reconnectPendingPage)).2).wsStatus
      = WsStatus.CONNECTING ∧
    (handleLogoutFinish freshAnswer
        (fireTimer alwaysExpired (handleLogoutStart reconnectPendingPage)).2).accessToken
      = none :=
  ⟨(handleLogout_interrupted_by_timer alwaysExpired freshAnswer reconnectPendingPage
      "fresh" 42 [] (by rfl) (by decide) (by rfl)).2.2.2.1,
   (handleLogout_interrupted_by_timer alwaysExpired freshAnswer reconnectPendingPage
      "fresh" 42 [] (by rfl) (by decide) (by rfl)).2.2.2.2.1⟩

/-- C9, as stated, fails: without a connected client, a blank draft makes `sendMessage`
return with no signal at all, and a page without a room gets the alert that asks to
enter a room, not the one that reports the missing connection. -/
theorem sendMessage_not_always_notConnected :
    blankDraftPage.connectedClient = none ∧
    (sendMessage blankDraftPage).log = [] ∧
    tokenOnlyPage.connectedClient = none ∧
    (sendMessage tokenOnlyPage).log = [Event.alert noRoomAlert] ∧
    Event.alert notConnectedAlert ∉ (sendMessage tokenOnlyPage).log := by
  refine ⟨by rfl, by rfl, by rfl, by rfl, ?_⟩
  have h : (sendMessage tokenOnlyPage).log = [Event.alert noRoomAlert] := by rfl
  rw [h]
  decide

/-- C9, amended: without a connected client `sendMessage` publishes no frame, makes no
network call and changes nothing of the page but the log, to which it adds the alert
that reports the missing connection exactly when a room is active and the draft is not
blank (without a room it adds the alert that asks to enter one, with a blank draft
nothing); with a room active, a draft that is not blank and a connected client it
publishes exactly one frame with the room and the draft to `/pub/message` and empties
the draft. -/
theorem sendMessage_spec (p : Page) :
    (p.connectedClient = none →
      sendMessage p = { p with log := p.log ++
        (match p.room with
         | none => [Event.alert noRoomAlert]
         | some room =>
           if room.chatRoomId = 0 then [Event.alert noRoomAlert]
           else if blank p.messageText then []
           else [Event.alert notConnectedAlert]) } ∧
      (sendMessage p).messageText = p.messageText ∧
      (sendMessage p).messages = p.messages ∧
      ∃ ev, (sendMessage p).log = p.log ++ ev ∧
        ev.countP isPublish = 0 ∧ ev.countP isFetch = 0) ∧
    (∀ c room, p.connectedClient = some c → p.room = some room →
      room.chatRoomId ≠ 0 → blank p.messageText = false →
      sendMessage p = { p with messageText := "", log := p.log ++
        [Event.publish c { destination := "/pub/message", chatRoomId := room.chatRoomId,
                           content := p.messageText }] }) := by
  constructor
  · intro h
    have key : sendMessage p = { p with log := p.log ++
        (match p.room with
         | none => [Event.alert noRoomAlert]
         | some room =>
           if room.chatRoomId = 0 then [Event.alert noRoomAlert]
           else if blank p.messageText then []
           else [Event.alert notConnectedAlert]) } := by
      unfold sendMessage
      rw [h]
      rcases p with ⟨tok, ck, me, room, text, msgs, st, ar, sr, sub, cls, act, nid, tm, lg⟩
      cases room with
      | none => simp [Page.emit]
      | some room =>
        by_cases h0 : room.chatRoomId = 0
        · simp [h0, Page.emit]
        · by_cases hb : blank text = true
          · simp [h0, hb]
          · simp [h0, hb, Page.emit]
    refine ⟨key, by rw [key], by rw [key], _, by rw [key], ?_⟩
    cases p.room with
    | none => simp [isPublish, isFetch]
    | some room =>
      dsimp only
      split
      · simp [isPublish, isFetch]
      · split <;> simp [isPublish, isFetch]
  · intro c room hc hr h0 hb
    unfold sendMessage
    rw [hc, hr]
    simp [h0, hb, PUB_PREFIX]

/-- Witness: a blank draft is dropped silently, and the draft `hi`
of a connected session in room 42 is published once. -/
theorem sendMessage_spec_witness :
    (sendMessage blankDraftPage).messageText = " " ∧
    (sendMessage draftPage).log = draftPage.log ++
      [Event.publish 0 { destination := "/pub/message", chatRoomId := 42, content := "hi" }] :=
  ⟨((sendMessage_spec blankDraftPage).1 (by rfl)).2.1,
   congrArg Page.log ((sendMessage_spec draftPage).2 0 { chatRoomId := 42 }
      (by rfl) (by rfl) (by decide) (by decide))⟩

/-- One frame: a body `JSON.parse` accepts is appended, any other leaves the list. -/
theorem onMessage_messages (parse : String → Option Json) (body : String) (p : Page) :
    (onMessage parse body p).messages = p.messages ++ (parse body).toList := by
  unfold onMessage
  cases h : parse body <;> simp [Page.emit]

/-- C10: `onMessage` is total; after the frames of any finite sequence, handled in
arrival order, the message list is the list before followed by the parsed payloads of
the frames `JSON.parse` accepts, in arrival order; a frame it rejects leaves the message
list unchanged. -/
theorem onMessage_in_arrival_order (parse : String → Option Json) (bodies : List String)
    (p : Page) :
    (bodies.foldl (fun q body => onMessage parse body q) p).messages
      = p.messages ++ bodies.filterMap parse ∧
    (∀ body, parse body = none → (onMessage parse body p).messages = p.messages) ∧
    (∀ body payload, parse body = some payload →
      (onMessage parse body p).messages = p.messages ++ [payload]) := by
  refine ⟨?_, ?_, ?_⟩
  · induction bodies generalizing p with
    | nil => simp
    | cons b bs ih =>
      rw [List.foldl_cons, ih, onMessage_messages]
      cases h : parse b <;> simp [List.filterMap_cons, h]
  · intro body h; rw [onMessage_messages, h]; simp
  · intro body payload h; rw [onMessage_messages, h]; simp

/-- Witness: a malformed frame between two well-formed
ones is dropped. -/
theorem onMessage_in_arrival_order_witness :
    (["null", "oops", "null"].foldl (fun q body => onMessage parseNull body q)
        tokenOnlyPage).messages = [Json.null, Json.null] ∧
    (onMessage parseNull "oops" tokenOnlyPage).messages = [] :=
  ⟨(onMessage_in_arrival_order parseNull ["null", "oops", "null"] tokenOnlyPage).1,
   (onMessage_in_arrival_order parseNull ["null", "oops", "null"] tokenOnlyPage).2.1
      "oops" (by rfl)⟩

/-! ## Witnesses -/

/-- Witness: the call that retried twice issued one call more
than tokens were stored. -/
theorem httpRequest_effects_witness :
    ∃ ev, (httpRequest expiredTwice 3 stalePage "POST" "/v1/chatRoom" none).2.log
        = stalePage.log ++ ev ∧ ev.countP isCall = ev.countP isStore + 1 := by
  obtain ⟨ev, h1, -, -, -, -, h6, -⟩ :=
    httpRequest_effects expiredTwice 3 stalePage "POST" "/v1/chatRoom" none
  exact ⟨ev, h1, h6 (by rfl)⟩

/-- Witness: on the connected session of room 42, with the token stored, a call for
room 7 and then one for room 9 leave the single subscription on the topic of room 9. -/
theorem connectAndSubscribe_replaces_subscription_witness :
    (connectAndSubscribe alwaysExpired 7 sessionPage).2.activeSubs
      = [{ id := 1, client := 0, topic := "/sub/channel/7" }] ∧
    (connectAndSubscribe alwaysExpired 9
        (connectAndSubscribe alwaysExpired 7 sessionPage).2).2.activeSubs
      = [{ id := 2, client := 0, topic := "/sub/channel/9" }] :=
  ⟨(connectAndSubscribe_replaces_subscription alwaysExpired sessionPage 0 "stale" 7 9
      (by unfold Page.subsTracked; decide) (by rfl) (by rfl) (by decide)).2.2.2.2.2.1,
   ((connectAndSubscribe_replaces_subscription alwaysExpired sessionPage 0 "stale" 7 9
      (by unfold Page.subsTracked; decide) (by rfl) (by rfl) (by decide)).2.2.2.2.2.2.2.1
      (by rfl)).1⟩

/-- Witness: the session of room 42 gets a STOMP error, the
token is renewed, the user disconnects, and the timer opens a second client. -/
theorem stale_timer_reconnects_witness :
    (disconnectWs (onStompError alwaysExpired 0 sessionPage).2).wsStatus
      = WsStatus.DISCONNECTED ∧
    (fireTimer alwaysExpired (disconnectWs (onStompError alwaysExpired 0 sessionPage).2)).2.wsStatus
      = WsStatus.CONNECTING ∧
    (fireTimer alwaysExpired
        (disconnectWs (onStompError alwaysExpired 0 sessionPage).2)).2.clients.length = 2 :=
  ⟨(stale_timer_reconnects alwaysExpired sessionPage 0
      { authorization := "Bearer stale", chatRoomId := 42, active := true, connected := true }
      "fresh" (by rfl) (by rfl)).2.1,
   (stale_timer_reconnects alwaysExpired sessionPage 0
      { authorization := "Bearer stale", chatRoomId := 42, active := true, connected := true }
      "fresh" (by rfl) (by rfl)).2.2.2.1,
   (stale_timer_reconnects alwaysExpired sessionPage 0
      { authorization := "Bearer stale", chatRoomId := 42, active := true, connected := true }
      "fresh" (by rfl) (by rfl)).2.2.2.2.2.1⟩

end ChatTestPage
